import Mathlib

/-!
# Submission-progress controller (`src/temp_script.js`)

A shallow embedding of the submit handler of `temp_script.js` and of the
recurring poll callback it installs, followed by theorems about them.

Modelling decisions.

* JavaScript values read from the two JSON bodies are `JsValue`.  The script
  does three things with such a value: it tests its truthiness, it compares
  it with a string by `===`, and it converts it to a string (template
  literal, `new Error(v)`, assignment to `textContent`).  A number is
  therefore represented by what these observe: `zero` for `0` and `-0`
  (falsy, printed `0`), and `number text` for any other number, where `text`
  is what JavaScript prints for the double that `JSON.parse` produced (`45`,
  `12.5`, `1e+21`, `1234567890123456800`).  An object or array is
  represented by the outcome of its string conversion, which can throw a
  `TypeError` (an object with an own, non-callable `toString`).  An absent
  field is `undefined`.  A body that parses to `null` makes the first
  property read throw and is covered by `Outcome.threw`.
* The page is a `Dom` record.  The elements the script guards with
  `if (el)` (`submitBtn`, `completionIcon`, `downloadAction`) are optional;
  the elements it dereferences without a guard are present.  A style,
  `href` or `innerHTML` field holds the string last assigned to it.
* The event loop is explicit: a `World` holds the page and one `Submission`
  per invocation of the submit handler (its closure: the task id, whether its
  interval timer is running, how many status requests are unsettled).  An
  `Event` is something the browser delivers: a form submit, the settling of
  the `/process` request, a firing of the interval timer, the settling of one
  `/progress` request.  `step` runs the code that the source runs for that
  event and returns the new world with the calls made (`Effect`).  An event
  that cannot occur in a world (a tick of a timer that is not running, a
  response to a request that was never sent) leaves it unchanged.
* Both `try` blocks are modelled with their `catch`: a string conversion
  that throws inside the poll callback (lines 52, 57-59, 70, 76) leaves the
  page as written so far and is logged by the inner `catch`; one that throws
  at line 44 reaches the outer `catch`.
-/

namespace ProgressController

/-! ## JavaScript values -/

/-- The outcome of converting a value to a string: the string, or a thrown
`TypeError` with its message. -/
inductive Conv where
  | text (s : String)
  | throws (message : String)
deriving DecidableEq, Repr

/-- Whether the conversion produced a string. -/
def Conv.isText : Conv → Bool
  | .text _ => true
  | .throws _ => false

/-- A value read from a parsed JSON body. -/
inductive JsValue where
  | undefined
  | null
  | bool (b : Bool)
  /-- the numbers `0` and `-0` -/
  | zero
  /-- any other number; `text` is what JavaScript prints for it -/
  | number (text : String)
  | str (s : String)
  /-- an object or array, given by the outcome of its string conversion -/
  | object (conv : Conv)
deriving DecidableEq, Repr

/-- JavaScript truthiness (`if (v)`, `v || d`). -/
def JsValue.truthy : JsValue → Bool
  | .undefined => false
  | .null => false
  | .bool b => b
  | .zero => false
  | .number _ => true
  | .str s => s != ""
  | .object _ => true

/-- JavaScript string conversion, as done by a template literal, by
`new Error(v)` and by assigning `textContent`. -/
def JsValue.toStr : JsValue → Conv
  | .undefined => .text "undefined"
  | .null => .text "null"
  | .bool true => .text "true"
  | .bool false => .text "false"
  | .zero => .text "0"
  | .number t => .text t
  | .str s => .text s
  | .object c => c

/-- The operator `a || b`. -/
def JsValue.or (a b : JsValue) : JsValue :=
  if a.truthy then a else b

/-- The settling of an awaited `fetch(...)` followed by `.json()`: either
something was thrown (an `Error` with the given `message`), or a body was
parsed. -/
inductive Outcome (α : Type) where
  | threw (message : String)
  | ok (data : α)
deriving DecidableEq, Repr

/-- The fields of the `/process` body that the handler reads. -/
structure ProcessData where
  error : JsValue
  task_id : JsValue
deriving DecidableEq, Repr

/-- The fields of a `/progress/<id>` body that the poll callback reads. -/
structure StatusData where
  percent : JsValue
  message : JsValue
  status : JsValue
  result_file : JsValue
deriving DecidableEq, Repr

/-! ## The page -/

/-- The submit button: `disabled` and `innerHTML`. -/
structure Button where
  disabled : Bool
  innerHTML : String
deriving DecidableEq, Repr

/-- The properties of the page that the script writes. -/
structure Dom where
  /-- The element `form.querySelector('button[type="submit"]')`, possibly null. -/
  submitBtn : Option Button
  /-- The value of `overlay.style.display`. -/
  overlayDisplay : String
  /-- Whether `overlay.classList` contains `visible`. -/
  overlayVisible : Bool
  /-- The value of `progressBar.style.width`. -/
  progressBarWidth : String
  /-- The value of `progressBar.style.backgroundColor`. -/
  progressBarBackground : String
  /-- The value of `progressPercent.textContent`. -/
  progressPercentText : String
  /-- The value of `progressMessage.textContent`. -/
  progressMessageText : String
  /-- The value of `progressMessage.style.color`. -/
  progressMessageColor : String
  /-- The value of `completionIcon.style.display`, when the element exists. -/
  completionIconDisplay : Option String
  /-- The value of `downloadAction.style.display`, when the element exists. -/
  downloadActionDisplay : Option String
  /-- The value of `downloadLink.href`. -/
  downloadLinkHref : String
deriving DecidableEq, Repr

/-- The markup written into the submit button while a submission runs
(line 17). -/
def busyLabel : String :=
  "<span class=\"spinner-border spinner-border-sm\" role=\"status\" aria-hidden=\"true\"></span> Processing..."

/-- Lines 14-32: disable the submit button, show the overlay. -/
def prepareUI (d : Dom) : Dom :=
  { d with
    submitBtn := d.submitBtn.map (fun b => { b with disabled := true, innerHTML := busyLabel })
    overlayDisplay := "flex"
    overlayVisible := true }

/-- Lines 89-96, the outer `catch (error)`: show the message, re-enable the
submit button. -/
def submitCatch (d : Dom) (message : String) : Dom :=
  { d with
    progressMessageText := "Error: " ++ message
    submitBtn := d.submitBtn.map
      (fun b => { b with disabled := false, innerHTML := "Generate Report" }) }

/-- Line 44, `throw new Error(data.error)`: the message of the error that
reaches the outer `catch`, which is the string conversion of `data.error`, or
the message of the `TypeError` that this conversion throws. -/
def thrownMessage (error : JsValue) : String :=
  match error.toStr with
  | .text s => s
  | .throws m => m

/-- Lines 55-59, "Update UI": the page after these lines, and the message of
the error thrown by a string conversion, if one threw.  Line 57 converts
`percent` before anything is written; line 59 converts the message after the
bar and the percent text are written. -/
def updateUI (d : Dom) (sd : StatusData) : Dom × Option String :=
  let percent := sd.percent.or .zero
  match percent.toStr with
  | .throws m => (d, some m)
  | .text p =>
    let d1 := { d with progressBarWidth := p ++ "%", progressPercentText := p ++ "%" }
    match (sd.message.or (.str "Processing...")).toStr with
    | .throws m => (d1, some m)
    | .text msg => ({ d1 with progressMessageText := msg }, none)

/-- Lines 63-72, the `completed` branch after `clearInterval`: the page, and
the message of the error thrown by the conversion of `result_file` at line
70, if it threw. -/
def showCompleted (d : Dom) (sd : StatusData) : Dom × Option String :=
  let d1 := { d with
    progressBarWidth := "100%", progressPercentText := "100%",
    progressMessageText := "Report Ready!" }
  let d2 := { d1 with completionIconDisplay := d1.completionIconDisplay.map (fun _ => "block") }
  match d2.downloadActionDisplay with
  | some _ =>
    match sd.result_file.toStr with
    | .text f =>
      ({ d2 with
          downloadLinkHref := "/download/" ++ f
          downloadActionDisplay := some "block" }, none)
    | .throws m => (d2, some m)
  | none => (d2, none)

/-- Lines 76-82, the `error` branch after `clearInterval`: the page, and the
message of the error thrown by the conversion of `message` at line 76, if it
threw. -/
def showError (d : Dom) (sd : StatusData) : Dom × Option String :=
  match sd.message.toStr with
  | .throws m => (d, some m)
  | .text msg =>
    ({ d with
        progressMessageText := "Error: " ++ msg
        progressMessageColor := "#dc3545"
        progressBarBackground := "#dc3545"
        submitBtn := d.submitBtn.map
          (fun b => { b with disabled := false, innerHTML := "Try Again" }) }, none)

/-- Which terminal branch of the poll callback ran. -/
inductive Terminal where
  | completed
  | error
deriving DecidableEq, Repr

/-- The branch selected by `statusData.status` (lines 61 and 74, strict
equality with a string). -/
def terminalOf (sd : StatusData) : Option Terminal :=
  if sd.status = .str "completed" then some .completed
  else if sd.status = .str "error" then some .error
  else none

/-- What one run of lines 55-83 did. -/
structure PollResult where
  /-- The page afterwards. -/
  dom : Dom
  /-- The branch that called `clearInterval`, if one was reached. -/
  cleared : Option Terminal
  /-- The message of the error caught by the inner `catch`, if one was thrown. -/
  thrown : Option String
deriving DecidableEq, Repr

/-- Lines 55-83: the body of the poll callback once the status body has
been parsed. -/
def pollBody (d : Dom) (sd : StatusData) : PollResult :=
  match updateUI d sd with
  | (d1, some m) => { dom := d1, cleared := none, thrown := some m }
  | (d1, none) =>
    match terminalOf sd with
    | some .completed =>
      { dom := (showCompleted d1 sd).1, cleared := some .completed,
        thrown := (showCompleted d1 sd).2 }
    | some .error =>
      { dom := (showError d1 sd).1, cleared := some .error, thrown := (showError d1 sd).2 }
    | none => { dom := d1, cleared := none, thrown := none }

/-! ## Closures, events, the event loop -/

/-- The state of one invocation of the submit handler. -/
inductive Submission where
  /-- the `/process` request has not settled -/
  | submitting
  /-- the outer `catch` ran; `setInterval` was never reached -/
  | submitFailed
  /-- after `setInterval` ran, while the timer is running; `inFlight` status
  requests have not settled -/
  | polling (taskId : JsValue) (inFlight : Nat)
  /-- after `clearInterval` ran; `inFlight` status requests have not settled -/
  | stopped (taskId : JsValue) (inFlight : Nat)
deriving DecidableEq, Repr

/-- A call made by the script, tagged with the submission that made it. -/
inductive Effect where
  | fetchProcess (sub : Nat)
  | setInterval (sub : Nat)
  | fetchProgress (sub : Nat) (url : String)
  | clearInterval (sub : Nat)
  | consoleError (sub : Nat) (label : String) (message : String)
deriving DecidableEq, Repr

/-- The page together with every submission started so far. -/
structure World where
  dom : Dom
  subs : List Submission
deriving DecidableEq, Repr

/-- What the browser delivers to the script. -/
inductive Event where
  /-- the form's `submit` event -/
  | submit
  /-- the `/process` request of submission `i` settles -/
  | processSettled (i : Nat) (r : Outcome ProcessData)
  /-- the interval timer of submission `i` fires -/
  | tick (i : Nat)
  /-- one `/progress` request of submission `i` settles -/
  | progressSettled (i : Nat) (r : Outcome StatusData)
deriving DecidableEq, Repr

/-- Lines 41-47 and 89-96: what the handler does when `/process` settles.
Returns the page, the new closure state and the calls made. -/
def onProcessSettled (i : Nat) (d : Dom) : Outcome ProcessData → Dom × Submission × List Effect
  | .threw message =>
    (submitCatch d message, .submitFailed, [.consoleError i "Submission error" message])
  | .ok data =>
    if data.error.truthy then
      (submitCatch d (thrownMessage data.error), .submitFailed,
        [.consoleError i "Submission error" (thrownMessage data.error)])
    else
      (d, .polling data.task_id 0, [.setInterval i])

/-- Lines 53-86: what the poll callback does when its status request
settles, for a closure with task id `tid` and `n` other requests unsettled;
`running` tells whether its timer is still running. -/
def onProgressSettled (i : Nat) (d : Dom) (tid : JsValue) (running : Bool) (n : Nat) :
    Outcome StatusData → Dom × Submission × List Effect
  | .threw message =>
    (d, (if running then .polling tid n else .stopped tid n),
      [.consoleError i "Polling error" message])
  | .ok sd =>
    let r := pollBody d sd
    (r.dom,
      (if running && r.cleared.isNone then .polling tid n else .stopped tid n),
      (match r.cleared with
        | some _ => [.clearInterval i]
        | none => []) ++
      (match r.thrown with
        | some m => [.consoleError i "Polling error" m]
        | none => []))

/-- Lines 51-52: what the poll callback does when the timer fires, for a
closure with task id `tid` and `n` requests unsettled: the template literal
converts the task id, then `fetch` is called. -/
def onTick (i : Nat) (tid : JsValue) (n : Nat) : Submission × List Effect :=
  match tid.toStr with
  | .text s => (.polling tid (n + 1), [.fetchProgress i ("/progress/" ++ s)])
  | .throws m => (.polling tid n, [.consoleError i "Polling error" m])

/-- One turn of the event loop. -/
def step (w : World) : Event → World × List Effect
  | .submit =>
    ({ dom := prepareUI w.dom, subs := w.subs ++ [.submitting] }, [.fetchProcess w.subs.length])
  | .processSettled i r =>
    match w.subs[i]? with
    | some .submitting =>
      match onProcessSettled i w.dom r with
      | (d, s, effs) => ({ dom := d, subs := w.subs.set i s }, effs)
    | _ => (w, [])
  | .tick i =>
    match w.subs[i]? with
    | some (.polling tid n) =>
      ({ w with subs := w.subs.set i (onTick i tid n).1 }, (onTick i tid n).2)
    | _ => (w, [])
  | .progressSettled i r =>
    match w.subs[i]? with
    | some (.polling tid (n + 1)) =>
      match onProgressSettled i w.dom tid true n r with
      | (d, s, effs) => ({ dom := d, subs := w.subs.set i s }, effs)
    | some (.stopped tid (n + 1)) =>
      match onProgressSettled i w.dom tid false n r with
      | (d, s, effs) => ({ dom := d, subs := w.subs.set i s }, effs)
    | _ => (w, [])

/-- A sequence of turns; the calls made are collected in order. -/
def run (w : World) : List Event → World × List Effect
  | [] => (w, [])
  | e :: es =>
    let r1 := step w e
    let r2 := run r1.1 es
    (r2.1, r1.2 ++ r2.2)

/-- The page before the script has written anything, with every element
present and the submit button enabled. -/
def initialDom : Dom :=
  { submitBtn := some { disabled := false, innerHTML := "Generate Report" }
    overlayDisplay := "none"
    overlayVisible := false
    progressBarWidth := "0%"
    progressBarBackground := ""
    progressPercentText := "0%"
    progressMessageText := ""
    progressMessageColor := ""
    completionIconDisplay := some "none"
    downloadActionDisplay := some "none"
    downloadLinkHref := "#" }

/-- The world when the page has loaded: no submission yet. -/
def initialWorld : World := { dom := initialDom, subs := [] }

/-! ## The controller states of the specification -/

/-- The states of the specification as far as the closure of a submission
determines them: `terminal` is Completed or Failed, entered when the outer
`catch` ran or `clearInterval` was called.  Which of the two the page
presents is page state, written by the branch that ran last. -/
inductive CtrlState where
  | idle
  | submitting
  | polling
  | terminal
deriving DecidableEq, Repr

/-- The controller state of one submission slot (`none`: not started). -/
def ctrlStateOf : Option Submission → CtrlState
  | none => .idle
  | some .submitting => .submitting
  | some .submitFailed => .terminal
  | some (.polling _ _) => .polling
  | some (.stopped _ _) => .terminal

/-- The controller state of the page: that of the most recent submission. -/
def World.ctrlState (w : World) : CtrlState :=
  ctrlStateOf w.subs.getLast?

/-! ## Auxiliary definitions for the statements -/

/-- The submission whose closure made the call. -/
def Effect.sub : Effect → Nat
  | .fetchProcess i => i
  | .setInterval i => i
  | .fetchProgress i _ => i
  | .clearInterval i => i
  | .consoleError i _ _ => i

/-- The submission an event is delivered to (`none` for a form submit, which
starts a new one). -/
def Event.target : Event → Option Nat
  | .submit => none
  | .processSettled i _ => some i
  | .tick i => some i
  | .progressSettled i _ => some i

/-- Whether the interval timer of the closure is running. -/
def Submission.timerRunning : Submission → Bool
  | .polling _ _ => true
  | _ => false

/-- The number of status requests of the closure that have not settled. -/
def Submission.inFlight : Submission → Nat
  | .polling _ n => n
  | .stopped _ n => n
  | _ => 0

/-- The task id held by the closure once `/process` has succeeded. -/
def Submission.taskId? : Submission → Option JsValue
  | .polling tid _ => some tid
  | .stopped tid _ => some tid
  | _ => none

/-- Whether the interval timer of submission `i` is running. -/
def World.timerRunning (w : World) (i : Nat) : Bool :=
  match w.subs[i]? with
  | some s => s.timerRunning
  | none => false

/-- The number of unsettled status requests of submission `i`. -/
def World.inFlight (w : World) (i : Nat) : Nat :=
  match w.subs[i]? with
  | some s => s.inFlight
  | none => 0

/-- The submit phase fails with error message `msg`: the request or the
parsing of its body threw an error with that message, or the body has a
truthy `error` and `msg` is the message of the error thrown at line 44 (the
string value of `error`). -/
def SubmitFails (r : Outcome ProcessData) (msg : String) : Prop :=
  r = .threw msg ∨ ∃ data, r = .ok data ∧ data.error.truthy = true ∧ msg = thrownMessage data.error

/-- The string conversions of lines 57-59 succeed for the snapshot: those of
`percent || 0` and of `message || 'Processing...'`.  This holds whenever
`percent` is absent or a number and `message` is absent or a string. -/
def StatusData.displayable (sd : StatusData) : Bool :=
  (sd.percent.or .zero).toStr.isText && (sd.message.or (.str "Processing...")).toStr.isText

/-- The event delivers to submission `i` a parsed status body whose status
is 'completed' or 'error' and whose percent and message can be displayed, so
that its terminal branch is reached. -/
def Event.clearsFor (i : Nat) : Event → Bool
  | .progressSettled j (.ok sd) => j == i && (terminalOf sd).isSome && sd.displayable
  | _ => false

/-- The event belongs to a poll phase and is not a snapshot with status
'error': a tick, a failed status request, or a snapshot with another
status. -/
def Event.pollNonError : Event → Bool
  | .tick _ => true
  | .progressSettled _ (.threw _) => true
  | .progressSettled _ (.ok sd) => decide (sd.status ≠ .str "error")
  | _ => false

/-- The arrows `Idle → Submitting → Polling → terminal` and
`Submitting → terminal`, together with staying put. -/
def CtrlState.arrow : CtrlState → CtrlState → Bool
  | .idle, .submitting => true
  | .submitting, .polling => true
  | .submitting, .terminal => true
  | .polling, .terminal => true
  | a, b => decide (a = b)

/-- Every submission with an unsettled status request holds a task id whose
string conversion succeeds. -/
def World.requestsIssued (w : World) : Prop :=
  ∀ (i : Nat) (s : Submission), w.subs[i]? = some s → 0 < s.inFlight →
    ∃ tid t, s.taskId? = some tid ∧ tid.toStr = .text t

/-! ## Concrete values, snapshots and worlds -/

/-- An object whose string conversion throws, such as `{"toString": null}`. -/
def unprintable : JsValue := .object (.throws "Cannot convert object to primitive value")

/-- A `/process` body `{ task_id: "abc" }`. -/
def acceptedBody : ProcessData := { error := .undefined, task_id := .str "abc" }

/-- A `/process` body `{ error: "No file uploaded" }`. -/
def rejectedBody : ProcessData := { error := .str "No file uploaded", task_id := .undefined }

/-- The snapshot `{status:'completed', result_file:'report.pdf'}`. -/
def completedSnapshot : StatusData :=
  { percent := .undefined, message := .undefined, status := .str "completed",
    result_file := .str "report.pdf" }

/-- The snapshot `{status:'error', message:'bad input'}`. -/
def errorSnapshot : StatusData :=
  { percent := .undefined, message := .str "bad input", status := .str "error",
    result_file := .undefined }

/-- The snapshot `{status:'error', message:'late failure'}`. -/
def lateErrorSnapshot : StatusData :=
  { percent := .undefined, message := .str "late failure", status := .str "error",
    result_file := .undefined }

/-- The snapshot `{percent:45, message:'Scanning', status:'pending'}`. -/
def pendingSnapshot : StatusData :=
  { percent := .number "45", message := .str "Scanning", status := .str "pending",
    result_file := .undefined }

/-- The snapshot `{percent:45, message:'', status:'pending'}`: the message is
present and empty. -/
def emptyMessageSnapshot : StatusData :=
  { percent := .number "45", message := .str "", status := .str "pending",
    result_file := .undefined }

/-- The snapshot `{percent:40, message:'Almost done', status:'completed',
result_file:'report.pdf'}`. -/
def completedAt40Snapshot : StatusData :=
  { percent := .number "40", message := .str "Almost done", status := .str "completed",
    result_file := .str "report.pdf" }

/-- The snapshot `{status:'completed', message:{toString:null},
result_file:'report.pdf'}`. -/
def completedOddMessageSnapshot : StatusData :=
  { percent := .undefined, message := unprintable, status := .str "completed",
    result_file := .str "report.pdf" }

/-- The snapshot `{status:'error', message:{toString:null}}`. -/
def errorOddMessageSnapshot : StatusData :=
  { percent := .undefined, message := unprintable, status := .str "error",
    result_file := .undefined }

/-- The snapshot `{percent:{toString:null}, message:'bad input',
status:'error'}`. -/
def errorOddPercentSnapshot : StatusData :=
  { percent := unprintable, message := .str "bad input", status := .str "error",
    result_file := .undefined }

/-- The page after one submit whose `/process` request has not settled. -/
def submittedWorld : World := (run initialWorld [.submit]).1

/-- The page after one accepted submit and one tick: one status request is
unsettled. -/
def pollingWorld : World :=
  (run initialWorld [.submit, .processSettled 0 (.ok acceptedBody), .tick 0]).1

/-- The page after one accepted submit and two ticks whose status requests
are both unsettled (the second tick fired before the first request
settled). -/
def overlappedWorld : World :=
  (run initialWorld [.submit, .processSettled 0 (.ok acceptedBody), .tick 0, .tick 0]).1

/-- The same as `pollingWorld` on a page that has no `#downloadAction`
element. -/
def barePollingWorld : World :=
  (run { dom := { initialDom with downloadActionDisplay := none }, subs := [] }
    [.submit, .processSettled 0 (.ok acceptedBody), .tick 0]).1

/-- The page after one accepted submit, one tick, and the snapshot
`{status:'error', message:'bad input'}`. -/
def failedWorld : World :=
  (step pollingWorld (.progressSettled 0 (.ok errorSnapshot))).1

/-- The page after one accepted submit, two overlapping ticks, and the
snapshot `{status:'completed', result_file:'report.pdf'}` for the first of
them; the second request is still unsettled. -/
def completedWorld : World :=
  (step overlappedWorld (.progressSettled 0 (.ok completedSnapshot))).1

/-! ## Lemmas on single turns -/

theorem onProcessSettled_sub (i : Nat) (d : Dom) (r : Outcome ProcessData) :
    ∀ f ∈ (onProcessSettled i d r).2.2, f.sub = i := by
  cases r with
  | threw m => simp [onProcessSettled, Effect.sub]
  | ok data =>
    by_cases h : data.error.truthy <;> simp [onProcessSettled, h, Effect.sub]

theorem onProgressSettled_sub (i : Nat) (d : Dom) (tid : JsValue) (running : Bool)
    (n : Nat) (r : Outcome StatusData) :
    ∀ f ∈ (onProgressSettled i d tid running n r).2.2, f.sub = i := by
  cases r with
  | threw m => simp [onProgressSettled, Effect.sub]
  | ok sd =>
    simp only [onProgressSettled]
    cases (pollBody d sd).cleared <;> cases (pollBody d sd).thrown <;> simp [Effect.sub]

theorem onTick_sub (i : Nat) (tid : JsValue) (n : Nat) :
    ∀ f ∈ (onTick i tid n).2, f.sub = i := by
  unfold onTick
  cases tid.toStr <;> simp [Effect.sub]

/-- An event delivered to another submission leaves slot `i` alone and makes
no call on its behalf. -/
theorem step_frame (w : World) (e : Event) (i : Nat) (s : Submission)
    (h : w.subs[i]? = some s) (ht : e.target ≠ some i) :
    (step w e).1.subs[i]? = some s ∧ ∀ f ∈ (step w e).2, f.sub ≠ i := by
  have hi : i < w.subs.length := by
    rcases List.getElem?_eq_some.1 h with ⟨hi, _⟩; exact hi
  cases e with
  | submit =>
    simp [step, Effect.sub, List.getElem?_append_left hi, h]; omega
  | processSettled j r =>
    have hj : j ≠ i := fun hji => ht (by simp [Event.target, hji])
    simp only [step]
    split
    · simp [List.getElem?_set_ne hj, h]
      intro f hf; rw [onProcessSettled_sub _ _ _ f hf]; exact hj
    · simp [h]
  | tick j =>
    have hj : j ≠ i := fun hji => ht (by simp [Event.target, hji])
    simp only [step]
    split
    · simp [List.getElem?_set_ne hj, h]
      intro f hf; rw [onTick_sub _ _ _ f hf]; exact hj
    · simp [h]
  | progressSettled j r =>
    have hj : j ≠ i := fun hji => ht (by simp [Event.target, hji])
    simp only [step]
    split
    · simp [List.getElem?_set_ne hj, h]
      intro f hf; rw [onProgressSettled_sub _ _ _ _ _ _ f hf]; exact hj
    · simp [List.getElem?_set_ne hj, h]
      intro f hf; rw [onProgressSettled_sub _ _ _ _ _ _ f hf]; exact hj
    · simp [h]

/-- An event is either delivered to submission `i` or not. -/
theorem Event.target_cases (e : Event) (i : Nat) :
    e.target ≠ some i ∨ (∃ r, e = .processSettled i r) ∨ e = .tick i ∨
      ∃ r, e = .progressSettled i r := by
  cases e with
  | submit => left; simp [Event.target]
  | processSettled j r =>
    by_cases hj : j = i
    · subst hj; right; left; exact ⟨r, rfl⟩
    · left; simp [Event.target, hj]
  | tick j =>
    by_cases hj : j = i
    · subst hj; right; right; left; rfl
    · left; simp [Event.target, hj]
  | progressSettled j r =>
    by_cases hj : j = i
    · subst hj; right; right; right; exact ⟨r, rfl⟩
    · left; simp [Event.target, hj]

/-- An event delivered to another submission cannot clear the timer of
submission `i`. -/
theorem Event.clearsFor_of_target_ne (e : Event) (i : Nat) (ht : e.target ≠ some i) :
    e.clearsFor i = false := by
  cases e with
  | progressSettled j r =>
    cases r with
    | threw m => rfl
    | ok sd =>
      have hj : j ≠ i := fun hji => ht (by simp [Event.target, hji])
      simp [Event.clearsFor, hj]
  | _ => rfl

/-- Lifting a one-turn invariant to sequences of turns. -/
theorem run_invariant (P : World → Prop) (Q : Effect → Prop)
    (hstep : ∀ w e, P w → P (step w e).1 ∧ ∀ f ∈ (step w e).2, Q f) :
    ∀ es w, P w → P (run w es).1 ∧ ∀ f ∈ (run w es).2, Q f := by
  intro es
  induction es with
  | nil => intro w hw; exact ⟨hw, by simp [run]⟩
  | cons e es ih =>
    intro w hw
    have h1 := hstep w e hw
    have h2 := ih (step w e).1 h1.1
    refine ⟨h2.1, ?_⟩
    intro f hf
    simp only [run, List.mem_append] at hf
    rcases hf with hf | hf
    · exact h1.2 f hf
    · exact h2.2 f hf

/-- The calls of a sequence of turns are those of its first turn followed by
those of the rest. -/
theorem run_cons (w : World) (e : Event) (es : List Event) :
    run w (e :: es) = ((run (step w e).1 es).1, (step w e).2 ++ (run (step w e).1 es).2) := rfl

/-- A submission whose submit phase failed stays so and makes no call. -/
theorem step_submitFailed (w : World) (e : Event) (i : Nat)
    (h : w.subs[i]? = some .submitFailed) :
    (step w e).1.subs[i]? = some .submitFailed ∧ ∀ f ∈ (step w e).2, f.sub ≠ i := by
  rcases Event.target_cases e i with ht | ⟨r, rfl⟩ | rfl | ⟨r, rfl⟩
  · exact step_frame w e i _ h ht
  all_goals simp [step, h]

/-- A tick of a running timer whose task id converts to `s` issues one
status request for it and touches nothing on the page. -/
theorem step_tick_polling (w : World) (i : Nat) (tid : JsValue) (n : Nat) (s : String)
    (h : w.subs[i]? = some (.polling tid n)) (ht : tid.toStr = .text s) :
    (step w (.tick i)).2 = [.fetchProgress i ("/progress/" ++ s)] ∧
    (step w (.tick i)).1.subs[i]? = some (.polling tid (n + 1)) ∧
    (step w (.tick i)).1.dom = w.dom := by
  have hi : i < w.subs.length := by
    rcases List.getElem?_eq_some.1 h with ⟨hi, _⟩; exact hi
  simp [step, h, hi, onTick, ht]

/-- A tick of a running timer whose task id cannot be converted only logs
the error. -/
theorem step_tick_throws (w : World) (i : Nat) (tid : JsValue) (n : Nat) (m : String)
    (h : w.subs[i]? = some (.polling tid n)) (ht : tid.toStr = .throws m) :
    (step w (.tick i)).2 = [.consoleError i "Polling error" m] ∧
    (step w (.tick i)).1.subs[i]? = some (.polling tid n) ∧
    (step w (.tick i)).1.dom = w.dom := by
  have hi : i < w.subs.length := by
    rcases List.getElem?_eq_some.1 h with ⟨hi, _⟩; exact hi
  simp [step, h, hi, onTick, ht]

/-- A tick never writes to the page. -/
theorem step_tick_dom (w : World) (i : Nat) : (step w (.tick i)).1.dom = w.dom := by
  simp only [step]
  split <;> rfl

/-- A parsed status body delivered while the timer runs: the page is what
`pollBody` computes, `clearInterval` is called exactly when a terminal
branch is reached, and an error thrown on the way is logged. -/
theorem step_progress_polling (w : World) (i : Nat) (tid : JsValue) (n : Nat) (sd : StatusData)
    (h : w.subs[i]? = some (.polling tid (n + 1))) :
    (step w (.progressSettled i (.ok sd))).1.dom = (pollBody w.dom sd).dom ∧
    (step w (.progressSettled i (.ok sd))).2 =
      (match (pollBody w.dom sd).cleared with
        | some _ => [.clearInterval i]
        | none => []) ++
      (match (pollBody w.dom sd).thrown with
        | some m => [.consoleError i "Polling error" m]
        | none => []) ∧
    (step w (.progressSettled i (.ok sd))).1.subs[i]? =
      some (if (pollBody w.dom sd).cleared.isNone then .polling tid n else .stopped tid n) := by
  have hi : i < w.subs.length := by
    rcases List.getElem?_eq_some.1 h with ⟨hi, _⟩; exact hi
  simp [step, h, onProgressSettled, hi]

/-- A parsed status body delivered after the timer was cleared (its request
was in flight): the page is again what `pollBody` computes, `clearInterval`
is called again when a terminal branch is reached, and the timer stays
cleared. -/
theorem step_progress_stopped (w : World) (i : Nat) (tid : JsValue) (n : Nat)
    (sd : StatusData) (h : w.subs[i]? = some (.stopped tid (n + 1))) :
    (step w (.progressSettled i (.ok sd))).1.dom = (pollBody w.dom sd).dom ∧
    (step w (.progressSettled i (.ok sd))).2 =
      (match (pollBody w.dom sd).cleared with
        | some _ => [.clearInterval i]
        | none => []) ++
      (match (pollBody w.dom sd).thrown with
        | some m => [.consoleError i "Polling error" m]
        | none => []) ∧
    (step w (.progressSettled i (.ok sd))).1.subs[i]? = some (.stopped tid n) := by
  have hi : i < w.subs.length := by
    rcases List.getElem?_eq_some.1 h with ⟨hi, _⟩; exact hi
  simp [step, h, onProgressSettled, hi]

/-- A status request that fails while the timer runs changes nothing but the
count of unsettled requests. -/
theorem step_progress_threw (w : World) (i : Nat) (tid : JsValue) (n : Nat) (msg : String)
    (h : w.subs[i]? = some (.polling tid (n + 1))) :
    (step w (.progressSettled i (.threw msg))).1.dom = w.dom ∧
    (step w (.progressSettled i (.threw msg))).2 = [.consoleError i "Polling error" msg] ∧
    (step w (.progressSettled i (.threw msg))).1.subs[i]? = some (.polling tid n) := by
  have hi : i < w.subs.length := by
    rcases List.getElem?_eq_some.1 h with ⟨hi, _⟩; exact hi
  simp [step, h, onProgressSettled, hi]

/-- A status request that fails after the timer was cleared changes nothing
but the count of unsettled requests. -/
theorem step_progress_threw_stopped (w : World) (i : Nat) (tid : JsValue) (n : Nat)
    (msg : String) (h : w.subs[i]? = some (.stopped tid (n + 1))) :
    (step w (.progressSettled i (.threw msg))).1.dom = w.dom ∧
    (step w (.progressSettled i (.threw msg))).2 = [.consoleError i "Polling error" msg] ∧
    (step w (.progressSettled i (.threw msg))).1.subs[i]? = some (.stopped tid n) := by
  have hi : i < w.subs.length := by
    rcases List.getElem?_eq_some.1 h with ⟨hi, _⟩; exact hi
  simp [step, h, onProgressSettled, hi]

/-- A submission whose timer was cleared keeps its task id, and never starts
a timer or a status request again. -/
theorem step_stopped (w : World) (e : Event) (i : Nat) (tid : JsValue) (n : Nat)
    (h : w.subs[i]? = some (.stopped tid n)) :
    (∃ m, (step w e).1.subs[i]? = some (.stopped tid m)) ∧
      ∀ f ∈ (step w e).2, f ≠ .setInterval i ∧ ∀ url, f ≠ .fetchProgress i url := by
  rcases Event.target_cases e i with ht | ⟨r, rfl⟩ | rfl | ⟨r, rfl⟩
  · have := step_frame w e i _ h ht
    refine ⟨⟨n, this.1⟩, fun f hf => ⟨?_, ?_⟩⟩
    · rintro rfl; exact this.2 _ hf rfl
    · rintro url rfl; exact this.2 _ hf rfl
  · simp [step, h]
  · simp [step, h]
  · cases n with
    | zero => simp [step, h]
    | succ n =>
      cases r with
      | threw m =>
        obtain ⟨-, h2, h3⟩ := step_progress_threw_stopped w i tid n m h
        exact ⟨⟨n, h3⟩, by rw [h2]; simp⟩
      | ok sd =>
        obtain ⟨-, h2, h3⟩ := step_progress_stopped w i tid n sd h
        refine ⟨⟨n, h3⟩, ?_⟩
        rw [h2]
        cases (pollBody w.dom sd).cleared <;> cases (pollBody w.dom sd).thrown <;> simp

/-- A submission that reached the poll phase keeps its task id; every status
request it makes is for the string conversion of that id, and it never calls
`setInterval` again. -/
theorem step_taskId (w : World) (e : Event) (i : Nat) (tid : JsValue)
    (h : ∃ s, w.subs[i]? = some s ∧ s.taskId? = some tid) :
    (∃ s, (step w e).1.subs[i]? = some s ∧ s.taskId? = some tid) ∧
      ∀ f ∈ (step w e).2, f ≠ .setInterval i ∧
        ∀ url, f = .fetchProgress i url →
          ∃ t, tid.toStr = .text t ∧ url = "/progress/" ++ t := by
  obtain ⟨s, hs, htid⟩ := h
  have hi : i < w.subs.length := by
    rcases List.getElem?_eq_some.1 hs with ⟨hi, _⟩; exact hi
  cases s with
  | submitting => simp [Submission.taskId?] at htid
  | submitFailed => simp [Submission.taskId?] at htid
  | stopped tid1 n =>
    simp [Submission.taskId?] at htid; subst htid
    obtain ⟨⟨m, hm⟩, hq⟩ := step_stopped w e i _ n hs
    refine ⟨⟨_, hm, rfl⟩, fun f hf => ⟨(hq f hf).1, ?_⟩⟩
    rintro url rfl; exact absurd rfl ((hq _ hf).2 url)
  | polling tid1 n =>
    simp [Submission.taskId?] at htid; subst htid
    rcases Event.target_cases e i with ht | ⟨r, rfl⟩ | rfl | ⟨r, rfl⟩
    · have := step_frame w e i _ hs ht
      refine ⟨⟨_, this.1, rfl⟩, fun f hf => ⟨?_, ?_⟩⟩
      · rintro rfl; exact this.2 _ hf rfl
      · rintro url rfl; exact absurd rfl (this.2 _ hf)
    · simp [step, hs, Submission.taskId?]
    · cases hc : tid1.toStr with
      | text t =>
        obtain ⟨h1, h2, -⟩ := step_tick_polling w i tid1 n t hs hc
        refine ⟨⟨_, h2, rfl⟩, ?_⟩
        rw [h1]; simp
      | throws m =>
        obtain ⟨h1, h2, -⟩ := step_tick_throws w i tid1 n m hs hc
        refine ⟨⟨_, h2, rfl⟩, ?_⟩
        rw [h1]; simp
    · cases n with
      | zero => simp [step, hs, Submission.taskId?]
      | succ n =>
        cases r with
        | threw m =>
          obtain ⟨-, h2, h3⟩ := step_progress_threw w i tid1 n m hs
          exact ⟨⟨_, h3, rfl⟩, by rw [h2]; simp⟩
        | ok sd =>
          obtain ⟨-, h2, h3⟩ := step_progress_polling w i tid1 n sd hs
          refine ⟨⟨_, h3, ?_⟩, ?_⟩
          · split <;> rfl
          · rw [h2]
            cases (pollBody w.dom sd).cleared <;> cases (pollBody w.dom sd).thrown <;> simp

/-! ## Lemmas on the poll callback body -/

/-- A snapshot is displayable exactly when both conversions of lines 57-59
yield strings. -/
theorem StatusData.displayable_iff (sd : StatusData) :
    sd.displayable = true ↔
      ∃ p m, (sd.percent.or .zero).toStr = .text p ∧
        (sd.message.or (.str "Processing...")).toStr = .text m := by
  unfold StatusData.displayable
  cases hp : (sd.percent.or .zero).toStr <;>
    cases hm : (sd.message.or (.str "Processing...")).toStr <;> simp [Conv.isText]

/-- The "Update UI" lines when both conversions yield strings. -/
theorem updateUI_of_texts (d : Dom) (sd : StatusData) (p m : String)
    (hp : (sd.percent.or .zero).toStr = .text p)
    (hm : (sd.message.or (.str "Processing...")).toStr = .text m) :
    updateUI d sd =
      ({ d with progressBarWidth := p ++ "%", progressPercentText := p ++ "%",
                progressMessageText := m }, none) := by
  simp [updateUI, hp, hm]

/-- The "Update UI" lines throw exactly when the snapshot is not
displayable. -/
theorem updateUI_thrown (d : Dom) (sd : StatusData) :
    (updateUI d sd).2.isNone = sd.displayable := by
  cases hp : (sd.percent.or .zero).toStr <;>
    cases hm : (sd.message.or (.str "Processing...")).toStr <;>
      simp [StatusData.displayable, updateUI, hp, hm, Conv.isText]

/-- The "Update UI" lines write neither the submit button nor the icon, the
download action or the link. -/
theorem updateUI_frame (d : Dom) (sd : StatusData) :
    (updateUI d sd).1.submitBtn = d.submitBtn ∧
    (updateUI d sd).1.completionIconDisplay = d.completionIconDisplay ∧
    (updateUI d sd).1.downloadActionDisplay = d.downloadActionDisplay ∧
    (updateUI d sd).1.downloadLinkHref = d.downloadLinkHref := by
  cases hp : (sd.percent.or .zero).toStr <;>
    cases hm : (sd.message.or (.str "Processing...")).toStr <;>
      simp [updateUI, hp, hm]

/-- The terminal branch reached by `pollBody`: the one selected by the
status when the snapshot is displayable, none when a conversion of lines
57-59 threw. -/
theorem pollBody_cleared (d : Dom) (sd : StatusData) :
    (pollBody d sd).cleared = if sd.displayable = true then terminalOf sd else none := by
  have hu := updateUI_thrown d sd
  unfold pollBody
  cases hd : sd.displayable
  · rw [hd] at hu
    rcases hres : updateUI d sd with ⟨d1, th⟩
    rw [hres] at hu
    cases th with
    | none => simp at hu
    | some m => simp
  · rw [hd] at hu
    rcases hres : updateUI d sd with ⟨d1, th⟩
    rw [hres] at hu
    cases th with
    | some m => simp at hu
    | none =>
      cases ht : terminalOf sd with
      | none => simp
      | some t => cases t <;> simp

/-- The result of `pollBody` on a displayable snapshot, by status. -/
theorem pollBody_of_displayable (d : Dom) (sd : StatusData) (hd : sd.displayable = true) :
    pollBody d sd =
      match terminalOf sd with
      | some .completed =>
        { dom := (showCompleted (updateUI d sd).1 sd).1, cleared := some .completed,
          thrown := (showCompleted (updateUI d sd).1 sd).2 }
      | some .error =>
        { dom := (showError (updateUI d sd).1 sd).1, cleared := some .error,
          thrown := (showError (updateUI d sd).1 sd).2 }
      | none => { dom := (updateUI d sd).1, cleared := none, thrown := none } := by
  have hu := updateUI_thrown d sd
  rw [hd] at hu
  unfold pollBody
  rcases hres : updateUI d sd with ⟨d1, th⟩
  rw [hres] at hu
  cases th with
  | some m => simp at hu
  | none => rfl

/-- The result of `pollBody` on a snapshot that is not displayable: the page
as the "Update UI" lines left it, no `clearInterval`, and a logged error. -/
theorem pollBody_of_not_displayable (d : Dom) (sd : StatusData)
    (hd : sd.displayable = false) :
    (pollBody d sd).dom = (updateUI d sd).1 ∧ (pollBody d sd).cleared = none ∧
      (pollBody d sd).thrown = (updateUI d sd).2 ∧ (pollBody d sd).thrown.isSome = true := by
  have hu := updateUI_thrown d sd
  rw [hd] at hu
  unfold pollBody
  rcases hres : updateUI d sd with ⟨d1, th⟩
  rw [hres] at hu
  cases th with
  | none => simp at hu
  | some m => simp

/-- A parsed status body delivered for an unsettled request of submission
`i`, whether or not its timer is still running. -/
theorem step_progress_inFlight (w : World) (i : Nat) (s : Submission) (sd : StatusData)
    (hs : w.subs[i]? = some s) (hf : 0 < s.inFlight) :
    (step w (.progressSettled i (.ok sd))).1.dom = (pollBody w.dom sd).dom ∧
    (step w (.progressSettled i (.ok sd))).2 =
      (match (pollBody w.dom sd).cleared with
        | some _ => [.clearInterval i]
        | none => []) ++
      (match (pollBody w.dom sd).thrown with
        | some m => [.consoleError i "Polling error" m]
        | none => []) ∧
    (step w (.progressSettled i (.ok sd))).1.timerRunning i =
      (s.timerRunning && (pollBody w.dom sd).cleared.isNone) := by
  cases s with
  | submitting => simp [Submission.inFlight] at hf
  | submitFailed => simp [Submission.inFlight] at hf
  | polling tid n =>
    cases n with
    | zero => simp [Submission.inFlight] at hf
    | succ n =>
      obtain ⟨h1, h2, h3⟩ := step_progress_polling w i tid n sd hs
      refine ⟨h1, h2, ?_⟩
      simp only [World.timerRunning, h3]
      cases (pollBody w.dom sd).cleared <;> simp [Submission.timerRunning]
  | stopped tid n =>
    cases n with
    | zero => simp [Submission.inFlight] at hf
    | succ n =>
      obtain ⟨h1, h2, h3⟩ := step_progress_stopped w i tid n sd hs
      refine ⟨h1, h2, ?_⟩
      simp [World.timerRunning, h3, Submission.timerRunning]

/-- A tick of a timer that is not running does nothing. -/
theorem step_tick_not_running (w : World) (i : Nat) (h : w.timerRunning i = false) :
    step w (.tick i) = (w, []) := by
  unfold World.timerRunning at h
  simp only [step]
  split
  · next tid n heq => simp [heq, Submission.timerRunning] at h
  · rfl

/-- String conversion of `a || b`. -/
theorem JsValue.or_toStr (a b : JsValue) :
    (a.or b).toStr = if a.truthy then a.toStr else b.toStr := by
  unfold JsValue.or
  split <;> rfl

/-- When `message` converts to a string, so does `message || 'Processing...'`. -/
theorem message_or_text (sd : StatusData) (em : String) (hem : sd.message.toStr = .text em) :
    ∃ m, (sd.message.or (.str "Processing...")).toStr = .text m := by
  rw [JsValue.or_toStr]
  split
  · exact ⟨em, hem⟩
  · exact ⟨_, rfl⟩

/-- What the `completed` branch leaves on the page. -/
theorem showCompleted_page (d : Dom) (sd : StatusData) :
    (showCompleted d sd).1.progressPercentText = "100%" ∧
    (showCompleted d sd).1.progressBarWidth = "100%" ∧
    (showCompleted d sd).1.progressMessageText = "Report Ready!" ∧
    (showCompleted d sd).1.completionIconDisplay =
      d.completionIconDisplay.map (fun _ => "block") ∧
    (showCompleted d sd).1.submitBtn = d.submitBtn ∧
    (∀ f, d.downloadActionDisplay.isSome = true → sd.result_file.toStr = .text f →
      (showCompleted d sd).1.downloadLinkHref = "/download/" ++ f ∧
      (showCompleted d sd).1.downloadActionDisplay = some "block" ∧
      (showCompleted d sd).2 = none) ∧
    (d.downloadActionDisplay = none →
      (showCompleted d sd).1.downloadLinkHref = d.downloadLinkHref ∧
      (showCompleted d sd).1.downloadActionDisplay = none ∧
      (showCompleted d sd).2 = none) := by
  cases hda : d.downloadActionDisplay <;> cases hf : sd.result_file.toStr <;>
    simp [showCompleted, hda, hf]

/-- What the `error` branch leaves on the page when `message` converts. -/
theorem showError_page (d : Dom) (sd : StatusData) (em : String)
    (hem : sd.message.toStr = .text em) :
    showError d sd =
      ({ d with
          progressMessageText := "Error: " ++ em
          progressMessageColor := "#dc3545"
          progressBarBackground := "#dc3545"
          submitBtn := d.submitBtn.map
            (fun b => { b with disabled := false, innerHTML := "Try Again" }) }, none) := by
  simp [showError, hem]

/-! ## Lemmas on the timer -/

/-- The number of `clearInterval` calls in what a settled status body makes
the callback do. -/
theorem progress_effects_count (i : Nat) (d : Dom) (sd : StatusData) :
    ((match (pollBody d sd).cleared with
        | some _ => [Effect.clearInterval i]
        | none => []) ++
      (match (pollBody d sd).thrown with
        | some m => [Effect.consoleError i "Polling error" m]
        | none => [])).count (Effect.clearInterval i) =
      if (terminalOf sd).isSome = true ∧ sd.displayable = true then 1 else 0 := by
  rw [pollBody_cleared]
  cases hd : sd.displayable <;> cases ht : terminalOf sd <;>
    cases (pollBody d sd).thrown <;> simp

/-- The number of `clearInterval` calls a turn makes for submission `i`: one
when the turn processes, for an unsettled request of `i`, a terminal snapshot
that reaches its branch, none otherwise. -/
theorem step_clear_count (w : World) (e : Event) (i : Nat) (s : Submission)
    (hs : w.subs[i]? = some s) :
    (step w e).2.count (.clearInterval i) =
      if 0 < s.inFlight ∧ e.clearsFor i = true then 1 else 0 := by
  rcases Event.target_cases e i with ht | ⟨r, rfl⟩ | rfl | ⟨r, rfl⟩
  · have h0 : (step w e).2.count (.clearInterval i) = 0 := by
      rw [List.count_eq_zero]
      intro hmem
      exact (step_frame w e i s hs ht).2 _ hmem rfl
    simp [h0, Event.clearsFor_of_target_ne e i ht]
  · cases s <;> simp [step, hs, Event.clearsFor]
    cases r with
    | threw m => simp [onProcessSettled]
    | ok data => by_cases h : data.error.truthy <;> simp [onProcessSettled, h]
  · cases s <;> simp [step, hs, Event.clearsFor]
    rename_i tid n
    unfold onTick
    cases tid.toStr <;> simp
  · cases s with
    | submitting => simp [step, hs, Submission.inFlight]
    | submitFailed => simp [step, hs, Submission.inFlight]
    | polling tid n =>
      cases n with
      | zero => simp [step, hs, Submission.inFlight]
      | succ n =>
        cases r with
        | threw m => simp [(step_progress_threw w i tid n m hs).2.1, Event.clearsFor]
        | ok sd =>
          rw [(step_progress_polling w i tid n sd hs).2.1, progress_effects_count]
          simp [Event.clearsFor, Submission.inFlight]
    | stopped tid n =>
      cases n with
      | zero => simp [step, hs, Submission.inFlight]
      | succ n =>
        cases r with
        | threw m => simp [(step_progress_threw_stopped w i tid n m hs).2.1, Event.clearsFor]
        | ok sd =>
          rw [(step_progress_stopped w i tid n sd hs).2.1, progress_effects_count]
          simp [Event.clearsFor, Submission.inFlight]

/-- In the poll phase the timer runs after a turn exactly when it ran before
and the turn made no `clearInterval` call for the submission. -/
theorem step_timerRunning (w : World) (e : Event) (i : Nat) (s : Submission)
    (hs : w.subs[i]? = some s) (ht : s.taskId?.isSome = true) :
    (step w e).1.timerRunning i =
      (s.timerRunning && decide ((step w e).2.count (.clearInterval i) = 0)) := by
  have hi : i < w.subs.length := by
    rcases List.getElem?_eq_some.1 hs with ⟨hi, _⟩; exact hi
  rw [step_clear_count w e i s hs]
  rcases Event.target_cases e i with hta | ⟨r, rfl⟩ | rfl | ⟨r, rfl⟩
  · simp [World.timerRunning, (step_frame w e i s hs hta).1,
      Event.clearsFor_of_target_ne e i hta]
  · cases s <;> simp [Submission.taskId?] at ht <;>
      simp [step, hs, World.timerRunning, Event.clearsFor]
  · cases s with
    | submitting => simp [Submission.taskId?] at ht
    | submitFailed => simp [Submission.taskId?] at ht
    | stopped tid n => simp [step, hs, World.timerRunning, Event.clearsFor]
    | polling tid n =>
      cases hc : tid.toStr with
      | text t =>
        simp [World.timerRunning, (step_tick_polling w i tid n t hs hc).2.1,
          Event.clearsFor, Submission.timerRunning]
      | throws m =>
        simp [World.timerRunning, (step_tick_throws w i tid n m hs hc).2.1,
          Event.clearsFor, Submission.timerRunning]
  · cases s with
    | submitting => simp [Submission.taskId?] at ht
    | submitFailed => simp [Submission.taskId?] at ht
    | polling tid n =>
      cases n with
      | zero => simp [step, hs, World.timerRunning, Submission.inFlight]
      | succ n =>
        cases r with
        | threw m =>
          simp [World.timerRunning, (step_progress_threw w i tid n m hs).2.2,
            Event.clearsFor, Submission.timerRunning]
        | ok sd =>
          simp only [World.timerRunning, (step_progress_polling w i tid n sd hs).2.2]
          rw [pollBody_cleared]
          cases hd : sd.displayable <;> cases hto : terminalOf sd <;>
            simp [Event.clearsFor, Submission.inFlight, Submission.timerRunning, hto, hd]
    | stopped tid n =>
      cases n with
      | zero => simp [step, hs, World.timerRunning, Submission.timerRunning]
      | succ n =>
        cases r with
        | threw m =>
          simp [World.timerRunning, (step_progress_threw_stopped w i tid n m hs).2.2,
            Submission.timerRunning]
        | ok sd =>
          simp [World.timerRunning, (step_progress_stopped w i tid n sd hs).2.2,
            Submission.timerRunning]

/-- Over a sequence of turns in the poll phase the timer runs at the end
exactly when it ran at the start and no `clearInterval` call was made for the
submission. -/
theorem run_timerRunning (i : Nat) (es : List Event) :
    ∀ (w : World) (s : Submission), w.subs[i]? = some s → s.taskId?.isSome = true →
      (run w es).1.timerRunning i =
        (s.timerRunning && decide ((run w es).2.count (.clearInterval i) = 0)) ∧
      ∃ s1, (run w es).1.subs[i]? = some s1 ∧ s1.taskId?.isSome = true := by
  induction es with
  | nil =>
    intro w s hs ht
    exact ⟨by simp [run, World.timerRunning, hs], s, hs, ht⟩
  | cons e es ih =>
    intro w s hs ht
    obtain ⟨tid, htid⟩ := Option.isSome_iff_exists.1 ht
    obtain ⟨⟨s1, hs1, ht1⟩, -⟩ := step_taskId w e i tid ⟨s, hs, htid⟩
    have ht1b : s1.taskId?.isSome = true := by simp [ht1]
    obtain ⟨ih1, ih2⟩ := ih (step w e).1 s1 hs1 ht1b
    have hstep := step_timerRunning w e i s hs ht
    have hrun1 : s1.timerRunning = (step w e).1.timerRunning i := by
      simp [World.timerRunning, hs1]
    refine ⟨?_, ih2⟩
    rw [run_cons]
    simp only [List.count_append]
    rw [ih1, hrun1, hstep]
    cases s.timerRunning <;> simp [Nat.add_eq_zero_iff]

/-! ## Lemmas on the state machine and on the submit button -/

/-- Staying put is an arrow. -/
theorem CtrlState.arrow_self (a : CtrlState) : a.arrow a = true := by
  cases a <;> rfl

/-- A turn does not shorten the list of submissions, and only a form submit
extends it, by one submission in the Submitting state. -/
theorem step_subs_none (w : World) (e : Event) (i : Nat) (h : w.subs[i]? = none) :
    (step w e).1.subs[i]? = none ∨ (step w e).1.subs[i]? = some .submitting := by
  have hi : w.subs.length ≤ i := List.getElem?_eq_none_iff.1 h
  cases e with
  | submit =>
    by_cases hl : i = w.subs.length
    · right; subst hl; simp [step]
    · left
      apply List.getElem?_eq_none_iff.2
      simp [step]; omega
  | processSettled j r =>
    left
    simp only [step]
    split
    · apply List.getElem?_eq_none_iff.2; simpa using hi
    · exact h
  | tick j =>
    left
    simp only [step]
    split
    · apply List.getElem?_eq_none_iff.2; simpa using hi
    · exact h
  | progressSettled j r =>
    left
    simp only [step]
    split
    · apply List.getElem?_eq_none_iff.2; simpa using hi
    · apply List.getElem?_eq_none_iff.2; simpa using hi
    · exact h

/-- A submission in the Polling state stays there or has its timer cleared,
and the latter only by a terminal snapshot that reaches its branch, which
then is the branch that called `clearInterval` and wrote the page. -/
theorem step_from_polling (w : World) (e : Event) (i : Nat) (tid : JsValue) (n : Nat)
    (h : w.subs[i]? = some (.polling tid n)) :
    (∃ m, (step w e).1.subs[i]? = some (.polling tid m)) ∨
    ((∃ m, (step w e).1.subs[i]? = some (.stopped tid m)) ∧
      ∃ sd t, e = .progressSettled i (.ok sd) ∧ terminalOf sd = some t ∧
        sd.displayable = true ∧ (pollBody w.dom sd).cleared = some t ∧
        (step w (.progressSettled i (.ok sd))).1.dom = (pollBody w.dom sd).dom) := by
  rcases Event.target_cases e i with ht | ⟨r, rfl⟩ | rfl | ⟨r, rfl⟩
  · left; exact ⟨n, (step_frame w e i _ h ht).1⟩
  · left; exact ⟨n, by simp [step, h]⟩
  · left
    cases hc : tid.toStr with
    | text t => exact ⟨_, (step_tick_polling w i tid n t h hc).2.1⟩
    | throws m => exact ⟨_, (step_tick_throws w i tid n m h hc).2.1⟩
  · cases n with
    | zero => left; exact ⟨0, by simp [step, h]⟩
    | succ n =>
      cases r with
      | threw m => left; exact ⟨n, (step_progress_threw w i tid n m h).2.2⟩
      | ok sd =>
        have h3 := (step_progress_polling w i tid n sd h).2.2
        have hcl := pollBody_cleared w.dom sd
        cases hd : sd.displayable with
        | false =>
          left; refine ⟨n, ?_⟩
          rw [h3, hcl]; simp [hd]
        | true =>
          cases hto : terminalOf sd with
          | none =>
            left; refine ⟨n, ?_⟩
            rw [h3, hcl]; simp [hd, hto]
          | some t =>
            right
            refine ⟨⟨n, ?_⟩, sd, t, rfl, hto, hd, ?_, (step_progress_polling w i tid n sd h).1⟩
            · rw [h3, hcl]; simp [hd, hto]
            · rw [hcl]; simp [hd, hto]

/-- Every turn moves every submission along an arrow of the state machine. -/
theorem step_arrow (w : World) (e : Event) (i : Nat) :
    (ctrlStateOf w.subs[i]?).arrow (ctrlStateOf (step w e).1.subs[i]?) = true := by
  cases h : w.subs[i]? with
  | none =>
    rcases step_subs_none w e i h with h1 | h1 <;> rw [h1] <;> rfl
  | some s =>
    have hi : i < w.subs.length := by
      rcases List.getElem?_eq_some.1 h with ⟨hi, _⟩; exact hi
    cases s with
    | submitFailed =>
      rw [(step_submitFailed w e i h).1]; rfl
    | stopped tid n =>
      obtain ⟨⟨m, hm⟩, -⟩ := step_stopped w e i tid n h
      rw [hm]; rfl
    | submitting =>
      rcases Event.target_cases e i with ht | ⟨r, rfl⟩ | rfl | ⟨r, rfl⟩
      · rw [(step_frame w e i _ h ht).1]; rfl
      · cases r with
        | threw m => simp [step, h, onProcessSettled, hi]; rfl
        | ok data =>
          by_cases he : data.error.truthy <;> simp [step, h, onProcessSettled, he, hi] <;> rfl
      · simp [step, h]; rfl
      · simp [step, h]; rfl
    | polling tid n =>
      rcases step_from_polling w e i tid n h with ⟨m, hm⟩ | ⟨⟨m, hm⟩, -⟩ <;> rw [hm] <;> rfl

/-- The poll callback body leaves the submit button alone unless the status
is 'error'. -/
theorem pollBody_submitBtn (d : Dom) (sd : StatusData) (h : sd.status ≠ .str "error") :
    (pollBody d sd).dom.submitBtn = d.submitBtn := by
  obtain ⟨u1, -, -, -⟩ := updateUI_frame d sd
  cases hd : sd.displayable with
  | false => rw [(pollBody_of_not_displayable d sd hd).1, u1]
  | true =>
    rw [pollBody_of_displayable d sd hd]
    by_cases hc : sd.status = .str "completed"
    · have ht : terminalOf sd = some .completed := by simp [terminalOf, hc]
      rw [ht]
      simp only
      rw [(showCompleted_page _ sd).2.2.2.2.1, u1]
    · have ht : terminalOf sd = none := by simp [terminalOf, hc, h]
      rw [ht]
      exact u1

/-- The page after a status request settles: unchanged, or rewritten by the
poll callback body with the parsed snapshot. -/
theorem step_progress_dom (w : World) (i : Nat) (r : Outcome StatusData) :
    (step w (.progressSettled i r)).1.dom = w.dom ∨
      ∃ sd, r = .ok sd ∧ (step w (.progressSettled i r)).1.dom = (pollBody w.dom sd).dom := by
  cases h : w.subs[i]? with
  | none => left; simp [step, h]
  | some s =>
    cases s with
    | submitting => left; simp [step, h]
    | submitFailed => left; simp [step, h]
    | polling tid n =>
      cases n with
      | zero => left; simp [step, h]
      | succ n =>
        cases r with
        | threw m => left; exact (step_progress_threw w i tid n m h).1
        | ok sd => right; exact ⟨sd, rfl, (step_progress_polling w i tid n sd h).1⟩
    | stopped tid n =>
      cases n with
      | zero => left; simp [step, h]
      | succ n =>
        cases r with
        | threw m => left; exact (step_progress_threw_stopped w i tid n m h).1
        | ok sd => right; exact ⟨sd, rfl, (step_progress_stopped w i tid n sd h).1⟩

/-- A poll-phase event other than an 'error' snapshot leaves the submit
button alone. -/
theorem step_submitBtn_frame (w : World) (e : Event) (h : e.pollNonError = true) :
    (step w e).1.dom.submitBtn = w.dom.submitBtn := by
  cases e with
  | submit => simp [Event.pollNonError] at h
  | processSettled j r => simp [Event.pollNonError] at h
  | tick j => rw [step_tick_dom]
  | progressSettled j r =>
    rcases step_progress_dom w j r with h1 | ⟨sd, rfl, h1⟩
    · rw [h1]
    · rw [h1]; exact pollBody_submitBtn w.dom sd (by simpa [Event.pollNonError] using h)

/-- A sequence of poll-phase events without an 'error' snapshot leaves the
submit button alone. -/
theorem run_submitBtn_frame (es : List Event) :
    ∀ w : World, (∀ e ∈ es, e.pollNonError = true) →
      (run w es).1.dom.submitBtn = w.dom.submitBtn := by
  induction es with
  | nil => intro w _; rfl
  | cons e es ih =>
    intro w h
    rw [run_cons]
    simp only
    rw [ih (step w e).1 (fun e1 h1 => h e1 (List.mem_cons_of_mem _ h1)),
      step_submitBtn_frame w e (h e (List.mem_cons_self _ _))]

/-- A `/process` request is only made by a form submit, for the submission
it starts. -/
theorem step_fetchProcess (w : World) (e : Event) (k : Nat)
    (h : Effect.fetchProcess k ∈ (step w e).2) : k = w.subs.length := by
  cases e with
  | submit => simpa [step] using h
  | processSettled j r =>
    simp only [step] at h
    split at h
    · cases r with
      | threw m => simp [onProcessSettled] at h
      | ok data => by_cases he : data.error.truthy <;> simp [onProcessSettled, he] at h
    · simp at h
  | tick j =>
    simp only [step] at h
    split at h
    · rename_i tid n _
      unfold onTick at h
      cases hc : tid.toStr <;> simp [hc] at h
    · simp at h
  | progressSettled j r =>
    simp only [step] at h
    split at h
    · cases r with
      | threw m => simp [onProgressSettled] at h
      | ok sd =>
        simp only [onProgressSettled] at h
        cases hc : (pollBody w.dom sd).cleared <;> cases hth : (pollBody w.dom sd).thrown <;>
          simp [hc, hth] at h
    · cases r with
      | threw m => simp [onProgressSettled] at h
      | ok sd =>
        simp only [onProgressSettled] at h
        cases hc : (pollBody w.dom sd).cleared <;> cases hth : (pollBody w.dom sd).thrown <;>
          simp [hc, hth] at h
    · simp at h

/-- A turn preserves `World.requestsIssued`: a status request is only issued
by a tick, after the conversion of the task id. -/
theorem step_requestsIssued (w : World) (e : Event) (hw : w.requestsIssued) :
    (step w e).1.requestsIssued := by
  intro i s hs hf
  cases h0 : w.subs[i]? with
  | none =>
    rcases step_subs_none w e i h0 with h1 | h1
    · rw [h1] at hs; simp at hs
    · rw [h1] at hs; simp at hs; subst hs; simp [Submission.inFlight] at hf
  | some s0 =>
    have hi : i < w.subs.length := by
      rcases List.getElem?_eq_some.1 h0 with ⟨hi, _⟩; exact hi
    rcases Event.target_cases e i with ht | ⟨r, rfl⟩ | rfl | ⟨r, rfl⟩
    · rw [(step_frame w e i _ h0 ht).1] at hs
      simp at hs; subst hs
      exact hw i s0 h0 hf
    · cases s0 with
      | submitting =>
        cases r with
        | threw m =>
          simp [step, h0, onProcessSettled, hi] at hs
          subst hs; simp [Submission.inFlight] at hf
        | ok data =>
          by_cases he : data.error.truthy <;>
            simp [step, h0, onProcessSettled, he, hi] at hs <;>
            subst hs <;> simp [Submission.inFlight] at hf
      | _ =>
        simp [step, h0] at hs; subst hs
        exact hw i _ h0 hf
    · cases s0 with
      | polling tid n =>
        cases hc : tid.toStr with
        | text t =>
          rw [(step_tick_polling w i tid n t h0 hc).2.1] at hs
          simp at hs; subst hs
          exact ⟨tid, t, rfl, hc⟩
        | throws m =>
          rw [(step_tick_throws w i tid n m h0 hc).2.1] at hs
          simp at hs; subst hs
          exact hw i _ h0 hf
      | _ =>
        simp [step, h0] at hs; subst hs
        exact hw i _ h0 hf
    · cases s0 with
      | submitting => simp [step, h0] at hs; subst hs; exact hw i _ h0 hf
      | submitFailed => simp [step, h0] at hs; subst hs; exact hw i _ h0 hf
      | polling tid n =>
        cases n with
        | zero => simp [step, h0] at hs; subst hs; exact hw i _ h0 hf
        | succ n =>
          obtain ⟨tid1, t, ht1, ht2⟩ := hw i _ h0 (by simp [Submission.inFlight])
          simp [Submission.taskId?] at ht1; subst ht1
          cases r with
          | threw m =>
            rw [(step_progress_threw w i tid n m h0).2.2] at hs
            simp at hs; subst hs
            exact ⟨tid, t, rfl, ht2⟩
          | ok sd =>
            rw [(step_progress_polling w i tid n sd h0).2.2] at hs
            simp at hs; subst hs
            refine ⟨tid, t, ?_, ht2⟩
            split <;> rfl
      | stopped tid n =>
        cases n with
        | zero => simp [step, h0] at hs; subst hs; exact hw i _ h0 hf
        | succ n =>
          obtain ⟨tid1, t, ht1, ht2⟩ := hw i _ h0 (by simp [Submission.inFlight])
          simp [Submission.taskId?] at ht1; subst ht1
          cases r with
          | threw m =>
            rw [(step_progress_threw_stopped w i tid n m h0).2.2] at hs
            simp at hs; subst hs
            exact ⟨tid, t, rfl, ht2⟩
          | ok sd =>
            rw [(step_progress_stopped w i tid n sd h0).2.2] at hs
            simp at hs; subst hs
            exact ⟨tid, t, rfl, ht2⟩

/-- In every world reached from a freshly loaded page, a submission with an
unsettled status request holds a task id whose string conversion succeeds. -/
theorem inFlight_taskId_converts (d : Dom) (es : List Event) :
    (run { dom := d, subs := [] } es).1.requestsIssued :=
  (run_invariant World.requestsIssued (fun _ => True)
    (fun w e hw => ⟨step_requestsIssued w e hw, fun _ _ => trivial⟩) es { dom := d, subs := [] }
    (by intro i s hs; simp at hs)).1

/-! ## The claims -/

/-- C1. When the submit phase of submission `i` fails with message `msg`
(the request or its parsing threw, or the body has a truthy `error`), the
handler logs the error and makes no other call (no `setInterval`), the
submission is in its failed state, the submit button (when the page has one)
is enabled with label 'Generate Report', the displayed message is
'Error: ' followed by `msg`, and in every later sequence of events the
submission never calls `setInterval` and never requests `/progress/...`. -/
theorem submit_failure_never_polls (w : World) (i : Nat) (r : Outcome ProcessData)
    (msg : String) (hs : w.subs[i]? = some .submitting) (hr : SubmitFails r msg) :
    (step w (.processSettled i r)).2 = [.consoleError i "Submission error" msg] ∧
    (step w (.processSettled i r)).1.subs[i]? = some .submitFailed ∧
    (step w (.processSettled i r)).1.dom.submitBtn =
      w.dom.submitBtn.map (fun _ => { disabled := false, innerHTML := "Generate Report" }) ∧
    (step w (.processSettled i r)).1.dom.progressMessageText = "Error: " ++ msg ∧
    ∀ es : List Event,
      (run (step w (.processSettled i r)).1 es).1.subs[i]? = some .submitFailed ∧
      ∀ f ∈ (run (step w (.processSettled i r)).1 es).2,
        f ≠ .setInterval i ∧ ∀ url, f ≠ .fetchProgress i url := by
  have hi : i < w.subs.length := by
    rcases List.getElem?_eq_some.1 hs with ⟨hi, _⟩; exact hi
  have key : (step w (.processSettled i r)).2 = [.consoleError i "Submission error" msg] ∧
      (step w (.processSettled i r)).1.subs[i]? = some .submitFailed ∧
      (step w (.processSettled i r)).1.dom = submitCatch w.dom msg := by
    rcases hr with rfl | ⟨data, rfl, ht, rfl⟩
    · simp [step, hs, onProcessSettled, hi]
    · simp [step, hs, onProcessSettled, ht, hi]
  obtain ⟨k1, k2, k3⟩ := key
  refine ⟨k1, k2, ?_, ?_, ?_⟩
  · rw [k3]; cases hb : w.dom.submitBtn <;> simp [submitCatch, hb]
  · rw [k3]; rfl
  · intro es
    have := run_invariant (fun w => w.subs[i]? = some .submitFailed) (fun f => f.sub ≠ i)
      (fun w e hw => step_submitFailed w e i hw) es _ k2
    refine ⟨this.1, fun f hf => ⟨?_, ?_⟩⟩
    · rintro rfl; exact this.2 _ hf rfl
    · rintro url rfl; exact this.2 _ hf rfl

/-- Witness for C1 on the freshly submitted page with the body
`{ error: "No file uploaded" }`. -/
theorem submit_failure_never_polls_witness :
    submittedWorld.subs[0]? = some .submitting ∧
    SubmitFails (.ok rejectedBody) "No file uploaded" ∧
    (step submittedWorld (.processSettled 0 (.ok rejectedBody))).1.dom.progressMessageText =
      "Error: No file uploaded" :=
  ⟨by decide, Or.inr ⟨rejectedBody, rfl, by decide, rfl⟩,
    (submit_failure_never_polls submittedWorld 0 (.ok rejectedBody) "No file uploaded"
      (by decide) (Or.inr ⟨rejectedBody, rfl, by decide, rfl⟩)).2.2.2.1⟩

/-- C2. When `/process` of submission `i` settles with a well-formed body,
one whose `error` is absent (or otherwise falsy) and whose `task_id` is a
string `t`, the submission calls `setInterval` and enters the Polling state
holding `t`; from then on, after any sequence of events, every status request
the submission has issued targets '/progress/' followed by exactly `t`, and
as long as its timer runs the next tick issues exactly one request, to that
same target. -/
theorem submit_success_polls_task_id (w : World) (i : Nat) (data : ProcessData) (t : String)
    (hs : w.subs[i]? = some .submitting) (he : data.error.truthy = false)
    (ht : data.task_id = .str t) :
    (step w (.processSettled i (.ok data))).2 = [.setInterval i] ∧
    (step w (.processSettled i (.ok data))).1.subs[i]? = some (.polling (.str t) 0) ∧
    ctrlStateOf (step w (.processSettled i (.ok data))).1.subs[i]? = .polling ∧
    (step (step w (.processSettled i (.ok data))).1 (.tick i)).2 =
      [.fetchProgress i ("/progress/" ++ t)] ∧
    ∀ es : List Event,
      (∀ f ∈ (run (step w (.processSettled i (.ok data))).1 es).2,
        ∀ url, f = .fetchProgress i url → url = "/progress/" ++ t) ∧
      ((run (step w (.processSettled i (.ok data))).1 es).1.timerRunning i = true →
        (step (run (step w (.processSettled i (.ok data))).1 es).1 (.tick i)).2 =
          [.fetchProgress i ("/progress/" ++ t)]) := by
  have hi : i < w.subs.length := by
    rcases List.getElem?_eq_some.1 hs with ⟨hi, _⟩; exact hi
  have k2 : (step w (.processSettled i (.ok data))).1.subs[i]? =
      some (.polling (.str t) 0) := by
    simp [step, hs, onProcessSettled, he, hi, ht]
  refine ⟨?_, k2, ?_, ?_, ?_⟩
  · simp [step, hs, onProcessSettled, he]
  · rw [k2]; rfl
  · exact (step_tick_polling _ i _ 0 t k2 rfl).1
  · intro es
    have := run_invariant (fun w => ∃ s, w.subs[i]? = some s ∧ s.taskId? = some (.str t))
      (fun f => f ≠ .setInterval i ∧
        ∀ url, f = .fetchProgress i url →
          ∃ t1, (JsValue.str t).toStr = .text t1 ∧ url = "/progress/" ++ t1)
      (fun w e hw => step_taskId w e i _ hw) es _ ⟨_, k2, rfl⟩
    refine ⟨?_, ?_⟩
    · intro f hf url hu
      obtain ⟨t1, h1, h2⟩ := (this.2 f hf).2 url hu
      simp [JsValue.toStr] at h1
      rw [h2, h1]
    · intro hrun
      obtain ⟨s, hs1, hs2⟩ := this.1
      cases s with
      | submitting => simp [Submission.taskId?] at hs2
      | submitFailed => simp [Submission.taskId?] at hs2
      | stopped tid n => simp [World.timerRunning, hs1, Submission.timerRunning] at hrun
      | polling tid n =>
        simp [Submission.taskId?] at hs2; subst hs2
        exact (step_tick_polling _ i _ n t hs1 rfl).1

/-- Witness for C2 on the freshly submitted page with the body
`{ task_id: "abc" }`: the first tick requests `/progress/abc`. -/
theorem submit_success_polls_task_id_witness :
    submittedWorld.subs[0]? = some .submitting ∧
    acceptedBody.error.truthy = false ∧
    (step (step submittedWorld (.processSettled 0 (.ok acceptedBody))).1 (.tick 0)).2 =
      [.fetchProgress 0 "/progress/abc"] :=
  ⟨by decide, by decide,
    (submit_success_polls_task_id submittedWorld 0 acceptedBody "abc" (by decide) (by decide)
      rfl).2.2.2.1⟩

/-- C3, counterexample. (a) On a page without the `#downloadAction` element
the snapshot `{status:'completed', result_file:'report.pdf'}` shows '100%' but
leaves the link target at '#'. (b) The snapshot `{status:'completed',
message:{toString:null}, result_file:'report.pdf'}` throws at line 59: the
page shows '0%', not '100%', the message is not 'Report Ready!',
`clearInterval` is not called and the timer keeps running. -/
theorem completed_snapshot_counterexample :
    completedSnapshot.status = .str "completed" ∧
    (step barePollingWorld (.progressSettled 0 (.ok completedSnapshot))).1.dom.progressPercentText
      = "100%" ∧
    (step barePollingWorld (.progressSettled 0 (.ok completedSnapshot))).1.dom.downloadLinkHref
      = "#" ∧
    completedOddMessageSnapshot.status = .str "completed" ∧
    (step pollingWorld (.progressSettled 0 (.ok completedOddMessageSnapshot))).1.dom.progressPercentText
      = "0%" ∧
    (step pollingWorld (.progressSettled 0 (.ok completedOddMessageSnapshot))).1.dom.progressMessageText
      ≠ "Report Ready!" ∧
    (step pollingWorld (.progressSettled 0 (.ok completedOddMessageSnapshot))).2 =
      [.consoleError 0 "Polling error" "Cannot convert object to primitive value"] ∧
    (step pollingWorld (.progressSettled 0 (.ok completedOddMessageSnapshot))).1.timerRunning 0
      = true := by
  decide

/-- C3, amended. When a snapshot with status 'completed' whose percent and
message convert to strings (a number, a string and an absent field always
do) is processed for an unsettled status request of submission `i`: the page
shows percent '100%', bar width '100%' and message 'Report Ready!';
`clearInterval` is called, the timer is not running and a later tick does
nothing; the completion icon (when the page has it) has display 'block'; and
on a page with the download action, when `result_file` converts to the
string `f`, the download action has display 'block', the link target is
'/download/' followed by `f`, and `clearInterval` is the only call made. -/
theorem completed_snapshot_shown (w : World) (i : Nat) (s : Submission) (sd : StatusData)
    (hs : w.subs[i]? = some s) (hf : 0 < s.inFlight) (hc : sd.status = .str "completed")
    (hd : sd.displayable = true) :
    (step w (.progressSettled i (.ok sd))).1.dom.progressPercentText = "100%" ∧
    (step w (.progressSettled i (.ok sd))).1.dom.progressBarWidth = "100%" ∧
    (step w (.progressSettled i (.ok sd))).1.dom.progressMessageText = "Report Ready!" ∧
    Effect.clearInterval i ∈ (step w (.progressSettled i (.ok sd))).2 ∧
    (step w (.progressSettled i (.ok sd))).1.timerRunning i = false ∧
    step (step w (.progressSettled i (.ok sd))).1 (.tick i) =
      ((step w (.progressSettled i (.ok sd))).1, []) ∧
    (step w (.progressSettled i (.ok sd))).1.dom.completionIconDisplay =
      w.dom.completionIconDisplay.map (fun _ => "block") ∧
    (∀ f : String, w.dom.downloadActionDisplay.isSome = true →
      sd.result_file.toStr = .text f →
        (step w (.progressSettled i (.ok sd))).1.dom.downloadActionDisplay = some "block" ∧
        (step w (.progressSettled i (.ok sd))).1.dom.downloadLinkHref = "/download/" ++ f ∧
        (step w (.progressSettled i (.ok sd))).2 = [.clearInterval i]) := by
  have ht : terminalOf sd = some .completed := by simp [terminalOf, hc]
  obtain ⟨h1, h2, h3⟩ := step_progress_inFlight w i s sd hs hf
  have hpb := pollBody_of_displayable w.dom sd hd
  rw [ht] at hpb
  simp only at hpb
  obtain ⟨u1, u2, u3, u4⟩ := updateUI_frame w.dom sd
  obtain ⟨c1, c2, c3, c4, -, c6, -⟩ := showCompleted_page (updateUI w.dom sd).1 sd
  have hrun : (step w (.progressSettled i (.ok sd))).1.timerRunning i = false := by
    rw [h3, hpb]; simp
  refine ⟨?_, ?_, ?_, ?_, hrun, step_tick_not_running _ i hrun, ?_, ?_⟩
  · rw [h1, hpb]; exact c1
  · rw [h1, hpb]; exact c2
  · rw [h1, hpb]; exact c3
  · rw [h2, hpb]; simp
  · rw [h1, hpb]; simp only; rw [c4, u2]
  · intro f hda hrf
    obtain ⟨k1, k2, k3⟩ := c6 f (by rw [u3]; exact hda) hrf
    refine ⟨?_, ?_, ?_⟩
    · rw [h1, hpb]; exact k2
    · rw [h1, hpb]; exact k1
    · rw [h2, hpb]; simp [k3]

/-- Witness for C3 (amended): `{status:'completed', result_file:'report.pdf'}`
on the polling page gives the link target `/download/report.pdf`. -/
theorem completed_snapshot_shown_witness :
    pollingWorld.subs[0]? = some (.polling (.str "abc") 1) ∧
    completedSnapshot.displayable = true ∧
    (step pollingWorld (.progressSettled 0 (.ok completedSnapshot))).1.dom.downloadLinkHref =
      "/download/report.pdf" :=
  ⟨by decide, by decide,
    ((completed_snapshot_shown pollingWorld 0 (.polling (.str "abc") 1) completedSnapshot
      (by decide) (by decide) rfl (by decide)).2.2.2.2.2.2.2 "report.pdf" (by decide) rfl).2.1⟩

/-- C4, counterexample. The snapshots `{status:'error',
message:{toString:null}}` and `{percent:{toString:null}, message:'bad input',
status:'error'}` throw at lines 59 and 57, before the `error` branch: only the
inner `catch` logs, `clearInterval` is not called, the timer keeps running,
the message is not 'Error: ...' and the submit button stays disabled. -/
theorem error_snapshot_counterexample :
    errorOddMessageSnapshot.status = .str "error" ∧
    (step pollingWorld (.progressSettled 0 (.ok errorOddMessageSnapshot))).2 =
      [.consoleError 0 "Polling error" "Cannot convert object to primitive value"] ∧
    (step pollingWorld (.progressSettled 0 (.ok errorOddMessageSnapshot))).1.timerRunning 0
      = true ∧
    (step pollingWorld (.progressSettled 0 (.ok errorOddMessageSnapshot))).1.dom.submitBtn =
      some { disabled := true, innerHTML := busyLabel } ∧
    errorOddPercentSnapshot.status = .str "error" ∧
    errorOddPercentSnapshot.message = .str "bad input" ∧
    (step pollingWorld (.progressSettled 0 (.ok errorOddPercentSnapshot))).1.dom.progressMessageText
      ≠ "Error: bad input" ∧
    (step pollingWorld (.progressSettled 0 (.ok errorOddPercentSnapshot))).1.timerRunning 0
      = true ∧
    (step pollingWorld (.progressSettled 0 (.ok errorOddPercentSnapshot))).1.dom.submitBtn =
      some { disabled := true, innerHTML := busyLabel } := by
  decide

/-- C4, amended. When a snapshot with status 'error' whose percent converts
to a string (a number and an absent percent always do) and whose message
converts to the string `m` (a string always does) is processed for an
unsettled status request of submission `i`: the displayed message is
'Error: ' followed by `m`, the message colour and the bar background are
'#dc3545', `clearInterval` is the only call made, the timer is not running
and a later tick does nothing, and the submit button (when the page has one)
is enabled with label 'Try Again'. -/
theorem error_snapshot_shown (w : World) (i : Nat) (s : Submission) (sd : StatusData)
    (p m : String) (hs : w.subs[i]? = some s) (hf : 0 < s.inFlight)
    (he : sd.status = .str "error") (hp : (sd.percent.or .zero).toStr = .text p)
    (hm : sd.message.toStr = .text m) :
    (step w (.progressSettled i (.ok sd))).1.dom.progressMessageText = "Error: " ++ m ∧
    (step w (.progressSettled i (.ok sd))).1.dom.progressMessageColor = "#dc3545" ∧
    (step w (.progressSettled i (.ok sd))).1.dom.progressBarBackground = "#dc3545" ∧
    (step w (.progressSettled i (.ok sd))).2 = [.clearInterval i] ∧
    (step w (.progressSettled i (.ok sd))).1.timerRunning i = false ∧
    step (step w (.progressSettled i (.ok sd))).1 (.tick i) =
      ((step w (.progressSettled i (.ok sd))).1, []) ∧
    (step w (.progressSettled i (.ok sd))).1.dom.submitBtn =
      w.dom.submitBtn.map (fun _ => { disabled := false, innerHTML := "Try Again" }) := by
  have ht : terminalOf sd = some .error := by simp [terminalOf, he]
  obtain ⟨m1, hm1⟩ := message_or_text sd m hm
  have hd : sd.displayable = true := (StatusData.displayable_iff sd).2 ⟨p, m1, hp, hm1⟩
  obtain ⟨h1, h2, h3⟩ := step_progress_inFlight w i s sd hs hf
  have hpb := pollBody_of_displayable w.dom sd hd
  rw [ht] at hpb
  simp only at hpb
  rw [showError_page _ sd m hm] at hpb
  obtain ⟨u1, -, -, -⟩ := updateUI_frame w.dom sd
  have hrun : (step w (.progressSettled i (.ok sd))).1.timerRunning i = false := by
    rw [h3, hpb]; simp
  refine ⟨?_, ?_, ?_, ?_, hrun, step_tick_not_running _ i hrun, ?_⟩
  · rw [h1, hpb]
  · rw [h1, hpb]
  · rw [h1, hpb]
  · rw [h2, hpb]; simp
  · rw [h1, hpb]; simp only; rw [u1]

/-- Witness for C4 (amended): `{status:'error', message:'bad input'}` on the
polling page shows 'Error: bad input'. -/
theorem error_snapshot_shown_witness :
    pollingWorld.subs[0]? = some (.polling (.str "abc") 1) ∧
    (step pollingWorld (.progressSettled 0 (.ok errorSnapshot))).1.dom.progressMessageText =
      "Error: bad input" :=
  ⟨by decide,
    (error_snapshot_shown pollingWorld 0 (.polling (.str "abc") 1) errorSnapshot "0" "bad input"
      (by decide) (by decide) rfl rfl rfl).1⟩

/-- C5, counterexample. The snapshot `{percent:45, message:'', status:'pending'}`
is neither 'completed' nor 'error' and carries a `message` (the empty string),
yet after it is processed the displayed message is 'Processing...', not the
snapshot's message. -/
theorem pending_empty_message_counterexample :
    emptyMessageSnapshot.status ≠ .str "completed" ∧
    emptyMessageSnapshot.status ≠ .str "error" ∧
    emptyMessageSnapshot.message = .str "" ∧
    (step pollingWorld (.progressSettled 0 (.ok emptyMessageSnapshot))).1.dom.progressMessageText =
      "Processing..." ∧
    (step pollingWorld (.progressSettled 0 (.ok emptyMessageSnapshot))).1.dom.progressMessageText ≠
      "" := by
  decide

/-- C5, amended. When a snapshot whose status is neither 'completed' nor
'error' is processed for an unsettled status request of submission `i`, and
`percent || 0` converts to the string `p` and `message || 'Processing...'` to
the string `m` (so `p` is the printed percent, or '0' when `percent` is
absent or falsy, and `m` is the message, or 'Processing...' when `message` is
absent or falsy, the empty string included): the displayed percent is `p`
followed by '%', the displayed message is `m`, no call is made
(`clearInterval` in particular), and the timer keeps running if it was. -/
theorem pending_snapshot_shown (w : World) (i : Nat) (s : Submission) (sd : StatusData)
    (p m : String) (hs : w.subs[i]? = some s) (hf : 0 < s.inFlight)
    (hc : sd.status ≠ .str "completed") (he : sd.status ≠ .str "error")
    (hp : (if sd.percent.truthy then sd.percent.toStr else .text "0") = .text p)
    (hm : (if sd.message.truthy then sd.message.toStr else .text "Processing...") = .text m) :
    (step w (.progressSettled i (.ok sd))).1.dom.progressPercentText = p ++ "%" ∧
    (step w (.progressSettled i (.ok sd))).1.dom.progressMessageText = m ∧
    (step w (.progressSettled i (.ok sd))).2 = [] ∧
    (step w (.progressSettled i (.ok sd))).1.timerRunning i = s.timerRunning := by
  have ht : terminalOf sd = none := by simp [terminalOf, hc, he]
  have hp1 : (sd.percent.or .zero).toStr = .text p := by rw [JsValue.or_toStr]; exact hp
  have hm1 : (sd.message.or (.str "Processing...")).toStr = .text m := by
    rw [JsValue.or_toStr]; exact hm
  have hd : sd.displayable = true := (StatusData.displayable_iff sd).2 ⟨p, m, hp1, hm1⟩
  obtain ⟨h1, h2, h3⟩ := step_progress_inFlight w i s sd hs hf
  have hpb := pollBody_of_displayable w.dom sd hd
  rw [ht] at hpb
  simp only at hpb
  rw [updateUI_of_texts _ sd p m hp1 hm1] at hpb
  refine ⟨?_, ?_, ?_, ?_⟩
  · rw [h1, hpb]
  · rw [h1, hpb]
  · rw [h2, hpb]; simp
  · rw [h3, hpb]; simp

/-- Witness for C5 (amended): `{percent:45, message:'Scanning',
status:'pending'}` on the polling page shows '45%' and 'Scanning', and the
timer keeps running. -/
theorem pending_snapshot_shown_witness :
    pollingWorld.subs[0]? = some (.polling (.str "abc") 1) ∧
    (step pollingWorld (.progressSettled 0 (.ok pendingSnapshot))).1.dom.progressPercentText
      = "45%" ∧
    (step pollingWorld (.progressSettled 0 (.ok pendingSnapshot))).1.dom.progressMessageText =
      "Scanning" ∧
    (step pollingWorld (.progressSettled 0 (.ok pendingSnapshot))).1.timerRunning 0 = true :=
  have h := pending_snapshot_shown pollingWorld 0 (.polling (.str "abc") 1) pendingSnapshot
    "45" "Scanning" (by decide) (by decide) (by decide) (by decide) rfl rfl
  ⟨by decide, h.1, h.2.1, h.2.2.2⟩

/-- C7, counterexample. After the snapshot `{percent:40, message:'Almost done',
status:'completed', result_file:'report.pdf'}` is processed the page shows
'100%' and 'Report Ready!', not the snapshot's percent and message. -/
theorem completed_overrides_snapshot_counterexample :
    completedAt40Snapshot.percent = .number "40" ∧
    completedAt40Snapshot.message = .str "Almost done" ∧
    (step pollingWorld (.progressSettled 0 (.ok completedAt40Snapshot))).1.dom.progressPercentText =
      "100%" ∧
    (step pollingWorld (.progressSettled 0 (.ok completedAt40Snapshot))).1.dom.progressPercentText ≠
      "40%" ∧
    (step pollingWorld (.progressSettled 0 (.ok completedAt40Snapshot))).1.dom.progressMessageText =
      "Report Ready!" ∧
    (step pollingWorld (.progressSettled 0 (.ok completedAt40Snapshot))).1.dom.progressMessageText ≠
      "Almost done" := by
  decide

/-- C7, amended. In any world (so after any sequence of earlier responses),
when a snapshot is processed for an unsettled status request of submission
`i`, and `percent || 0` converts to the string `p`, `message || 'Processing...'`
to the string `m` and `message` to the string `em` (a number, a string and an
absent field always convert), the displayed percent and message are
determined by that snapshot alone: '100%' and 'Report Ready!' when its status
is 'completed'; `p` followed by '%' and 'Error: ' followed by `em` when its
status is 'error'; otherwise `p` followed by '%' and `m`. -/
theorem display_reflects_latest_snapshot (w : World) (i : Nat) (s : Submission)
    (sd : StatusData) (p m em : String) (hs : w.subs[i]? = some s) (hf : 0 < s.inFlight)
    (hp : (if sd.percent.truthy then sd.percent.toStr else .text "0") = .text p)
    (hm : (if sd.message.truthy then sd.message.toStr else .text "Processing...") = .text m)
    (hem : sd.message.toStr = .text em) :
    (step w (.progressSettled i (.ok sd))).1.dom.progressPercentText =
      (if sd.status = .str "completed" then "100%" else p ++ "%") ∧
    (step w (.progressSettled i (.ok sd))).1.dom.progressMessageText =
      (if sd.status = .str "completed" then "Report Ready!"
       else if sd.status = .str "error" then "Error: " ++ em
       else m) := by
  have hp1 : (sd.percent.or .zero).toStr = .text p := by rw [JsValue.or_toStr]; exact hp
  have hm1 : (sd.message.or (.str "Processing...")).toStr = .text m := by
    rw [JsValue.or_toStr]; exact hm
  have hd : sd.displayable = true := (StatusData.displayable_iff sd).2 ⟨p, m, hp1, hm1⟩
  obtain ⟨h1, -, -⟩ := step_progress_inFlight w i s sd hs hf
  have hpb := pollBody_of_displayable w.dom sd hd
  rw [h1]
  by_cases hc : sd.status = .str "completed"
  · have ht : terminalOf sd = some .completed := by simp [terminalOf, hc]
    rw [ht] at hpb
    simp only at hpb
    obtain ⟨c1, -, c3, -⟩ := showCompleted_page (updateUI w.dom sd).1 sd
    rw [hpb]
    simp [hc, c1, c3]
  · by_cases he : sd.status = .str "error"
    · have ht : terminalOf sd = some .error := by simp [terminalOf, he]
      rw [ht] at hpb
      simp only at hpb
      rw [showError_page _ sd em hem, updateUI_of_texts _ sd p m hp1 hm1] at hpb
      rw [hpb]
      simp [hc, he]
    · have ht : terminalOf sd = none := by simp [terminalOf, hc, he]
      rw [ht] at hpb
      simp only at hpb
      rw [updateUI_of_texts _ sd p m hp1 hm1] at hpb
      rw [hpb]
      simp [hc, he]

/-- Witness for C7 (amended): two snapshots in a row on a page with two
unsettled requests; after the second, the page shows the second. -/
theorem display_reflects_latest_snapshot_witness :
    (step overlappedWorld (.progressSettled 0 (.ok emptyMessageSnapshot))).1.subs[0]? =
      some (.polling (.str "abc") 1) ∧
    (step (step overlappedWorld (.progressSettled 0 (.ok emptyMessageSnapshot))).1
      (.progressSettled 0 (.ok pendingSnapshot))).1.dom.progressMessageText = "Scanning" :=
  ⟨by decide,
    (display_reflects_latest_snapshot
      (step overlappedWorld (.progressSettled 0 (.ok emptyMessageSnapshot))).1 0
      (.polling (.str "abc") 1) pendingSnapshot "45" "Scanning" "Scanning"
      (by decide) (by decide) rfl rfl rfl).2⟩

/-- C8. When a status request of submission `i` fails while its timer runs:
the page (percent, message, submit button and all else) is unchanged, the
failure is logged and `clearInterval` is not called, the submission stays in
the Polling state with its timer running, the next tick issues a status
request for the same task id, and the snapshot that request returns is
processed as usual. The request is for the string `t` that the task id
converts to; that conversion succeeds in every world reached from a freshly
loaded page, since the failed request was itself issued after it. -/
theorem failed_tick_keeps_polling (w : World) (i : Nat) (tid : JsValue) (n : Nat)
    (msg : String) (hs : w.subs[i]? = some (.polling tid (n + 1))) :
    (step w (.progressSettled i (.threw msg))).1.dom = w.dom ∧
    (step w (.progressSettled i (.threw msg))).2 = [.consoleError i "Polling error" msg] ∧
    (step w (.progressSettled i (.threw msg))).1.subs[i]? = some (.polling tid n) ∧
    ctrlStateOf (step w (.progressSettled i (.threw msg))).1.subs[i]? = .polling ∧
    (step w (.progressSettled i (.threw msg))).1.timerRunning i = true ∧
    (∀ t : String, tid.toStr = .text t →
      (step (step w (.progressSettled i (.threw msg))).1 (.tick i)).2 =
        [.fetchProgress i ("/progress/" ++ t)] ∧
      ∀ sd : StatusData,
        (step (step (step w (.progressSettled i (.threw msg))).1 (.tick i)).1
          (.progressSettled i (.ok sd))).1.dom = (pollBody w.dom sd).dom) ∧
    (∀ (d : Dom) (es : List Event), w = (run { dom := d, subs := [] } es).1 →
      ∃ t : String, tid.toStr = .text t) := by
  obtain ⟨h1, h2, h3⟩ := step_progress_threw w i tid n msg hs
  refine ⟨h1, h2, h3, ?_, ?_, ?_, ?_⟩
  · rw [h3]; rfl
  · simp [World.timerRunning, h3, Submission.timerRunning]
  · intro t ht
    obtain ⟨t1, t2, t3⟩ := step_tick_polling _ i tid n t h3 ht
    refine ⟨t1, fun sd => ?_⟩
    rw [(step_progress_polling _ i tid n sd t2).1, t3, h1]
  · intro d es hw
    subst hw
    obtain ⟨tid1, t, ht1, ht2⟩ :=
      inFlight_taskId_converts d es i _ hs (by simp [Submission.inFlight])
    simp [Submission.taskId?] at ht1
    subst ht1
    exact ⟨t, ht2⟩

/-- Witness for C8: a failed status request on the polling page leaves the
page as it was, and the next tick requests `/progress/abc`. -/
theorem failed_tick_keeps_polling_witness :
    pollingWorld.subs[0]? = some (.polling (.str "abc") 1) ∧
    (step pollingWorld (.progressSettled 0 (.threw "Failed to fetch"))).1.dom =
      pollingWorld.dom ∧
    (step (step pollingWorld (.progressSettled 0 (.threw "Failed to fetch"))).1 (.tick 0)).2 =
      [.fetchProgress 0 "/progress/abc"] :=
  have h := failed_tick_keeps_polling pollingWorld 0 (.str "abc") 0 "Failed to fetch"
    (by decide)
  ⟨by decide, h.1, (h.2.2.2.2.2.1 "abc" rfl).1⟩

/-- C6, counterexample. Two ticks fire before either status request settles
and both requests return status 'completed': the first response clears the
timer, and the second response, of the tick that was already in flight,
calls `clearInterval` a second time. -/
theorem timer_cleared_twice_counterexample :
    (step overlappedWorld (.progressSettled 0 (.ok completedSnapshot))).2 =
      [.clearInterval 0] ∧
    (step completedWorld (.progressSettled 0 (.ok completedSnapshot))).2 =
      [.clearInterval 0] ∧
    (run initialWorld
      [.submit, .processSettled 0 (.ok acceptedBody), .tick 0, .tick 0,
        .progressSettled 0 (.ok completedSnapshot),
        .progressSettled 0 (.ok completedSnapshot)]).2.count (.clearInterval 0) = 2 := by
  decide

/-- C6, amended. From a world where the timer of submission `i` runs, after
any sequence of events: the timer is still running exactly when no
`clearInterval` call has been made for `i`, and `setInterval` is never called
again for `i`; and the next event makes one `clearInterval` call for `i` when
it delivers, to an unsettled request of `i`, a snapshot with status
'completed' or 'error' whose percent and message convert to strings (a
number, a string and an absent field always do), and none otherwise. So no
response before the first such terminal one clears the timer, that one does,
the timer then stays cleared, and each later terminal response of a request
already in flight calls `clearInterval` again. -/
theorem timer_cleared_by_terminal_responses (w : World) (i : Nat) (tid : JsValue) (n : Nat)
    (es : List Event) (hs : w.subs[i]? = some (.polling tid n)) :
    ((run w es).1.timerRunning i = true ↔ (run w es).2.count (.clearInterval i) = 0) ∧
    (∀ f ∈ (run w es).2, f ≠ .setInterval i) ∧
    ∀ e : Event, (step (run w es).1 e).2.count (.clearInterval i) =
      if 0 < (run w es).1.inFlight i ∧ e.clearsFor i = true then 1 else 0 := by
  obtain ⟨h1, s1, hs1, -⟩ := run_timerRunning i es w _ hs rfl
  refine ⟨?_, ?_, ?_⟩
  · rw [h1]; simp [Submission.timerRunning]
  · intro f hf
    exact ((run_invariant (fun w => ∃ s, w.subs[i]? = some s ∧ s.taskId? = some tid)
      (fun f => f ≠ .setInterval i ∧
        ∀ url, f = .fetchProgress i url → ∃ t, tid.toStr = .text t ∧ url = "/progress/" ++ t)
      (fun w e hw => step_taskId w e i _ hw) es w ⟨_, hs, rfl⟩).2 f hf).1
  · intro e
    rw [step_clear_count _ e i s1 hs1]
    simp [World.inFlight, hs1]

/-- Witness for C6 (amended): on the page with two unsettled requests, after
a 'pending' snapshot the timer still runs; the next event, a 'completed'
snapshot, makes one `clearInterval` call. -/
theorem timer_cleared_by_terminal_responses_witness :
    overlappedWorld.subs[0]? = some (.polling (.str "abc") 2) ∧
    (run overlappedWorld [.progressSettled 0 (.ok pendingSnapshot)]).1.timerRunning 0 = true ∧
    (step (run overlappedWorld [.progressSettled 0 (.ok pendingSnapshot)]).1
      (.progressSettled 0 (.ok completedSnapshot))).2.count (.clearInterval 0) = 1 :=
  have h := timer_cleared_by_terminal_responses overlappedWorld 0 (.str "abc") 2
    [.progressSettled 0 (.ok pendingSnapshot)] (by decide)
  ⟨by decide, h.1.2 (by decide),
    (h.2.2 (.progressSettled 0 (.ok completedSnapshot))).trans (by decide)⟩

/-- C9, counterexample. (a) After a snapshot with status 'error' the timer
is cleared and the page shows the failure with the submit button enabled as
'Try Again'; a new form submit then disables the button, requests `/process`
and puts the controller in Submitting. (b) After a snapshot with status
'completed' the timer is cleared and the page shows '100%' and
'Report Ready!'; the response of a tick that was already in flight then
changes the displayed percent and message to '45%' and 'Scanning'. (c) If
that late response has status 'error' instead, the page of the completed
submission shows 'Error: late failure' with the red bar and the submit button
enabled as 'Try Again'. -/
theorem terminal_states_left_counterexample :
    failedWorld.ctrlState = .terminal ∧
    failedWorld.dom.progressMessageText = "Error: bad input" ∧
    failedWorld.dom.submitBtn = some { disabled := false, innerHTML := "Try Again" } ∧
    (step failedWorld .submit).1.ctrlState = .submitting ∧
    (step failedWorld .submit).2 = [.fetchProcess 1] ∧
    (step failedWorld .submit).1.dom.submitBtn =
      some { disabled := true, innerHTML := busyLabel } ∧
    completedWorld.ctrlState = .terminal ∧
    completedWorld.timerRunning 0 = false ∧
    completedWorld.dom.progressPercentText = "100%" ∧
    completedWorld.dom.progressMessageText = "Report Ready!" ∧
    (step completedWorld (.progressSettled 0 (.ok pendingSnapshot))).1.dom.progressPercentText =
      "45%" ∧
    (step completedWorld (.progressSettled 0 (.ok pendingSnapshot))).1.dom.progressMessageText =
      "Scanning" ∧
    (step completedWorld (.progressSettled 0 (.ok lateErrorSnapshot))).1.dom.progressMessageText
      = "Error: late failure" ∧
    (step completedWorld (.progressSettled 0 (.ok lateErrorSnapshot))).1.dom.progressBarBackground
      = "#dc3545" ∧
    (step completedWorld (.progressSettled 0 (.ok lateErrorSnapshot))).1.dom.submitBtn =
      some { disabled := false, innerHTML := "Try Again" } := by
  decide

/-- C9, amended. Every event moves every submission along an arrow of
Idle → Submitting → Polling → terminal (Completed or Failed),
Submitting → terminal (Failed), or leaves its state as it is; a submission
leaves Polling only when a snapshot with status 'completed' or 'error'
reaches its branch, which clears the timer and writes the page; and once a submission is terminal (its timer cleared, or
its submit failed), after any sequence of events it is still terminal, its
timer is not running, and it has made no `/process` request, no
`setInterval` call and no `/progress` request. What the page presents is not
fixed by that: a new form submit starts a new submission, so that the
controller is Submitting again, and a snapshot returned to a request that was
in flight when the timer was cleared is still processed by the poll callback
body, which rewrites the page. -/
theorem submission_state_machine (w : World) (i : Nat) (e : Event) (es : List Event) :
    (ctrlStateOf w.subs[i]?).arrow (ctrlStateOf (step w e).1.subs[i]?) = true ∧
    (ctrlStateOf w.subs[i]? = .polling → ctrlStateOf (step w e).1.subs[i]? = .terminal →
      ∃ sd t, e = .progressSettled i (.ok sd) ∧ terminalOf sd = some t ∧
        sd.displayable = true ∧ (pollBody w.dom sd).cleared = some t ∧
        (step w (.progressSettled i (.ok sd))).1.dom = (pollBody w.dom sd).dom) ∧
    (ctrlStateOf w.subs[i]? = .terminal →
      ctrlStateOf (run w es).1.subs[i]? = .terminal ∧
      (run w es).1.timerRunning i = false ∧
      ∀ f ∈ (run w es).2,
        f ≠ .fetchProcess i ∧ f ≠ .setInterval i ∧ ∀ url, f ≠ .fetchProgress i url) ∧
    (step w .submit).1.ctrlState = .submitting ∧
    (∀ (tid : JsValue) (n : Nat) (sd : StatusData),
      w.subs[i]? = some (.stopped tid (n + 1)) →
        (step w (.progressSettled i (.ok sd))).1.dom = (pollBody w.dom sd).dom) := by
  refine ⟨step_arrow w e i, ?_, ?_, by simp [step, World.ctrlState, ctrlStateOf],
    fun tid n sd h => (step_progress_stopped w i tid n sd h).1⟩
  · intro hpoll hterm
    cases h : w.subs[i]? with
    | none => rw [h] at hpoll; simp [ctrlStateOf] at hpoll
    | some s =>
      cases s with
      | submitting => rw [h] at hpoll; simp [ctrlStateOf] at hpoll
      | submitFailed => rw [h] at hpoll; simp [ctrlStateOf] at hpoll
      | stopped tid n => rw [h] at hpoll; simp [ctrlStateOf] at hpoll
      | polling tid n =>
        rcases step_from_polling w e i tid n h with ⟨m, hm⟩ | ⟨-, hex⟩
        · rw [hm] at hterm; simp [ctrlStateOf] at hterm
        · exact hex
  · intro hterm
    cases h : w.subs[i]? with
    | none => rw [h] at hterm; simp [ctrlStateOf] at hterm
    | some s =>
      cases s with
      | submitting => rw [h] at hterm; simp [ctrlStateOf] at hterm
      | polling tid n => rw [h] at hterm; simp [ctrlStateOf] at hterm
      | submitFailed =>
        have := run_invariant (fun w => w.subs[i]? = some .submitFailed) (fun f => f.sub ≠ i)
          (fun w e hw => step_submitFailed w e i hw) es w h
        refine ⟨by rw [this.1]; rfl,
          by simp [World.timerRunning, this.1, Submission.timerRunning],
          fun f hf => ⟨?_, ?_, ?_⟩⟩
        · rintro rfl; exact this.2 _ hf rfl
        · rintro rfl; exact this.2 _ hf rfl
        · rintro url rfl; exact this.2 _ hf rfl
      | stopped tid n =>
        have := run_invariant (fun w => ∃ m, w.subs[i]? = some (.stopped tid m))
          (fun f => f ≠ .fetchProcess i ∧ f ≠ .setInterval i ∧ ∀ url, f ≠ .fetchProgress i url)
          (fun w e hw => by
            obtain ⟨m, hm⟩ := hw
            have hst := step_stopped w e i tid m hm
            refine ⟨hst.1, fun f hf => ⟨?_, (hst.2 f hf).1, (hst.2 f hf).2⟩⟩
            rintro rfl
            have hi : i < w.subs.length := by
              rcases List.getElem?_eq_some.1 hm with ⟨hi, _⟩; exact hi
            have := step_fetchProcess w e i hf
            omega) es w ⟨n, h⟩
        obtain ⟨⟨m, hm⟩, hq⟩ := this
        exact ⟨by rw [hm]; rfl,
          by simp [World.timerRunning, hm, Submission.timerRunning], hq⟩

/-- Witness for C9 (amended): the failed submission stays terminal through a
new form submit and a stray tick. -/
theorem submission_state_machine_witness :
    ctrlStateOf failedWorld.subs[0]? = .terminal ∧
    ctrlStateOf (run failedWorld [.submit, .tick 0]).1.subs[0]? = .terminal ∧
    (run failedWorld [.submit, .tick 0]).1.timerRunning 0 = false :=
  have h := (submission_state_machine failedWorld 0 .submit [.submit, .tick 0]).2.2.1
    (by decide)
  ⟨by decide, h.1, h.2.1⟩

/-- C10. A poll-phase event that is not a snapshot with status 'error' (a
tick, a failed status request, a 'pending' or 'completed' snapshot) leaves
the submit button as it is; hence after a form submit whose `/process` body
has no truthy `error`, followed by any sequence of such events, the submit
button (when the page has one) is still disabled with the busy label the
submit handler wrote, also after a 'completed' snapshot. -/
theorem submit_control_untouched_by_polling (w w1 : World) (e1 : Event) (data : ProcessData)
    (es : List Event) (h1 : e1.pollNonError = true) (he : data.error.truthy = false)
    (hes : ∀ e ∈ es, e.pollNonError = true) :
    (step w1 e1).1.dom.submitBtn = w1.dom.submitBtn ∧
    (run w (.submit :: .processSettled w.subs.length (.ok data) :: es)).1.dom.submitBtn =
      w.dom.submitBtn.map (fun _ => { disabled := true, innerHTML := busyLabel }) := by
  refine ⟨step_submitBtn_frame w1 e1 h1, ?_⟩
  rw [run_cons, run_cons]
  simp only
  rw [run_submitBtn_frame es _ hes]
  have hsub : (step w .submit).1.subs[w.subs.length]? = some .submitting := by
    simp [step]
  simp only [step, hsub, onProcessSettled, he]
  cases hb : w.dom.submitBtn <;> simp [prepareUI, hb]

/-- Witness for C10: submit, accepted, one tick, a 'completed' snapshot: the
submit button is still disabled with the busy label. -/
theorem submit_control_untouched_by_polling_witness :
    (run initialWorld
      [.submit, .processSettled 0 (.ok acceptedBody), .tick 0,
        .progressSettled 0 (.ok completedSnapshot)]).1.dom.submitBtn =
      some { disabled := true, innerHTML := busyLabel } :=
  (submit_control_untouched_by_polling initialWorld pollingWorld (.tick 0) acceptedBody
    [.tick 0, .progressSettled 0 (.ok completedSnapshot)] rfl (by decide) (by decide)).2

end ProgressController
